import Mathlib

/-!
Verification of the spotify-data-viz synchronization engine
(`src/spotify_logger/`): a shallow embedding of the worker, sheet
structure, registry, and crypto modules, together with theorems checking
the natural-language specification against this embedding.

The Google-Sheets backing store is modelled as a value: a spreadsheet is
a list of titled worksheets, a worksheet is a list of rows of string
cells.  gspread operations used by the code (`row_values`, `col_values`,
`update`, `append_rows`, `resize`, `get_all_records`) are given their
documented value-level semantics (`row_values`/`col_values` trim trailing
empty cells; `get_all_records` keys data rows by the header row, padding
missing cells with the empty string).  Python dicts are modelled as
insertion-ordered association lists with unique keys.
-/

/-- Drop trailing empty-string cells, as gspread `row_values` does. -/
def trimTrailingBlanks (r : List String) : List String :=
  (r.reverse.dropWhile (fun c => c = "")).reverse

/-- Pad a row with empty cells up to length `n`. -/
def padBlanksTo (n : Nat) (r : List String) : List String :=
  r ++ List.replicate (n - r.length) ""

/-- Last `n` elements of a list (Python `l[-n:]` for `n > 0`). -/
def takeLastN (n : Nat) (l : List String) : List String :=
  l.drop (l.length - n)

/-- Python `str.lower` (ASCII usage). -/
def asciiLower (s : String) : String := ⟨s.data.map Char.toLower⟩

/-- Python `str.strip`: remove leading and trailing whitespace. -/
def pyStrip (s : String) : String :=
  ⟨((s.data.dropWhile Char.isWhitespace).reverse.dropWhile Char.isWhitespace).reverse⟩

/-- Replace every non-overlapping occurrence of `pat` by `rep`, left to
right, with enough fuel (Python `str.replace`; an empty `pat` never
occurs in this code base and is treated as no occurrence). -/
def replaceCharsAux (pat rep : List Char) : Nat → List Char → List Char
  | _, [] => []
  | 0, cs => cs
  | Nat.succ fuel, c :: cs =>
    if pat ≠ [] ∧ pat.isPrefixOf (c :: cs) then
      rep ++ replaceCharsAux pat rep fuel ((c :: cs).drop pat.length)
    else c :: replaceCharsAux pat rep fuel cs

/-- Python `s.replace(pat, rep)`. -/
def pyReplace (s pat rep : String) : String :=
  ⟨replaceCharsAux pat.data rep.data s.data.length s.data⟩

/-- Python dict with string keys and values: insertion-ordered assoc list. -/
abbrev PyDict := List (String × String)

/-- Python `d.get(k, dflt)` (first binding; dicts built below have unique keys). -/
def pyGet (d : PyDict) (k dflt : String) : String :=
  match d.find? (fun kv => kv.1 = k) with
  | some kv => kv.2
  | none => dflt

/-- Python `k in d`. -/
def pyHasKey (d : PyDict) (k : String) : Bool :=
  d.any (fun kv => kv.1 = k)

/-- Python `d[k] = v`: replace in place if present, else append. -/
def pyInsert (d : PyDict) (k v : String) : PyDict :=
  if pyHasKey d k then d.map (fun kv => if kv.1 = k then (kv.1, v) else kv)
  else d ++ [(k, v)]

/-- Python `d.setdefault(k, v)`. -/
def pySetdefault (d : PyDict) (k v : String) : PyDict :=
  if pyHasKey d k then d else d ++ [(k, v)]

/-- Fold a dict of updates into `d`, in update order. -/
def pyMerge (d u : PyDict) : PyDict :=
  u.foldl (fun acc kv => pyInsert acc kv.1 kv.2) d

/-- One worksheet: the grid of non-empty data rows, row 1 first. -/
structure Worksheet where
  cells : List (List String)
deriving DecidableEq

/-- Row `n` (1-based) of the raw grid. -/
def Worksheet.rowAt (ws : Worksheet) (n : Nat) : List String :=
  ws.cells.getD (n - 1) []

/-- gspread `ws.row_values(n)`. -/
def row_values (ws : Worksheet) (n : Nat) : List String :=
  trimTrailingBlanks (ws.rowAt n)

/-- Extend the grid with empty rows up to `n` rows. -/
def padRowsTo (n : Nat) (cs : List (List String)) : List (List String) :=
  cs ++ List.replicate (n - cs.length) []

/-- gspread `ws.update("n:n", [r])`: overwrite row `n` (1-based). -/
def Worksheet.setRow (ws : Worksheet) (n : Nat) (r : List String) : Worksheet :=
  ⟨(padRowsTo n ws.cells).set (n - 1) r⟩

/-- gspread `ws.update("s:e", rows)`: overwrite consecutive rows from row `s` on. -/
def Worksheet.setRowsFrom : Worksheet → Nat → List (List String) → Worksheet
  | ws, _, [] => ws
  | ws, s, r :: rest => (ws.setRow s r).setRowsFrom (s + 1) rest

/-- gspread `ws.append_rows(rows)`: append after the last data row. -/
def Worksheet.appendDataRows (ws : Worksheet) (rs : List (List String)) : Worksheet :=
  ⟨ws.cells ++ rs⟩

/-- gspread `ws.resize(rows=n)` as used here: truncate surplus data rows
(extension only adds blank grid rows, which carry no data in this model). -/
def Worksheet.resizeRows (ws : Worksheet) (n : Nat) : Worksheet :=
  ⟨ws.cells.take n⟩

/-- gspread `ws.col_values(c)`. -/
def col_values (ws : Worksheet) (c : Nat) : List String :=
  trimTrailingBlanks (ws.cells.map (fun r => r.getD (c - 1) ""))

/-- One record of `get_all_records`: data row keyed by the header row. -/
def recordOfRow (headers row : List String) : PyDict :=
  headers.enum.map (fun ih => (ih.2, row.getD ih.1 ""))

/-- gspread `ws.get_all_records()`. -/
def get_all_records (ws : Worksheet) : List PyDict :=
  let hs := row_values ws 1
  (ws.cells.drop 1).map (recordOfRow hs)

/-- One spreadsheet: titled worksheets plus the set of hidden titles. -/
structure Spreadsheet where
  sheets : List (String × Worksheet)
  hiddenTitles : List String
deriving DecidableEq

/-- Look up a worksheet by title (`ss.worksheet(title)`). -/
def findWs (ss : Spreadsheet) (t : String) : Option Worksheet :=
  (ss.sheets.find? (fun p => p.1 = t)).map (fun p => p.2)

/-- Does a worksheet with this title exist? -/
def hasWsTitle (ss : Spreadsheet) (t : String) : Bool :=
  (findWs ss t).isSome

/-- Replace the worksheet with title `t`, or add it at the end. -/
def setWs (ss : Spreadsheet) (t : String) (w : Worksheet) : Spreadsheet :=
  if hasWsTitle ss t then
    ⟨ss.sheets.map (fun p => if p.1 = t then (t, w) else p), ss.hiddenTitles⟩
  else ⟨ss.sheets ++ [(t, w)], ss.hiddenTitles⟩

/-- The worksheet with title `t` (callers ensure existence first). -/
def getWs (ss : Spreadsheet) (t : String) : Worksheet :=
  (findWs ss t).getD ⟨[]⟩

/-- sheets_client `get_or_create_worksheet` (row/col capacity args are
grid capacity only and carry no data in this model). -/
def get_or_create_worksheet (ss : Spreadsheet) (t : String) : Spreadsheet :=
  if hasWsTitle ss t then ss else setWs ss t ⟨[]⟩

/-- Apply `f` to the worksheet titled `t`. -/
def modifyWs (ss : Spreadsheet) (t : String) (f : Worksheet → Worksheet) : Spreadsheet :=
  setWs ss t (f (getWs ss t))

/-- sheets_client `set_hidden`: best-effort hidden flag on a worksheet. -/
def set_hidden (ss : Spreadsheet) (t : String) (h : Bool) : Spreadsheet :=
  if hasWsTitle ss t = false then ss
  else if h then
    (if ss.hiddenTitles.contains t then ss else ⟨ss.sheets, ss.hiddenTitles ++ [t]⟩)
  else ⟨ss.sheets, ss.hiddenTitles.filter (fun x => x ≠ t)⟩

/-!
crypto_utils.py.  The Fernet primitive is the external `cryptography`
library, not repository code; it is modelled as an ideal authenticated
symmetric cipher over an abstract key space `Nat`: encryption of `pt`
under key `key` is the (injective) token `'k'^key ++ ":" ++ pt`, and
decryption under `key` succeeds exactly on tokens of that shape for the
same `key`, failing (`InvalidToken`) on every other string.  The
repository wrappers `encrypt_refresh_token` / `decrypt_refresh_token`
are translated from the source on top of this primitive.
-/

/-- Error raised by `decrypt_refresh_token`: Python `ValueError` for the
empty ciphertext, `cryptography.fernet.InvalidToken` otherwise. -/
inductive CryptoError where
  | emptyToken
  | invalidToken
deriving DecidableEq

/-- Ideal-cipher Fernet token for plaintext `pt` under key `key`. -/
def fernetEncode (key : Nat) (pt : String) : String :=
  ⟨List.replicate key 'k' ++ ':' :: pt.data⟩

/-- Ideal-cipher Fernet decoding: strip exactly `key` marker characters
and the separator; any other shape is an authentication failure. -/
def fernetDecodeAux : Nat → List Char → Option (List Char)
  | _, [] => none
  | 0, c :: rest => if c = ':' then some rest else none
  | Nat.succ k, c :: rest => if c = 'k' then fernetDecodeAux k rest else none

/-- Fernet decryption of a token string under `key`. -/
def fernetDecode (key : Nat) (ct : String) : Option String :=
  (fernetDecodeAux key ct.data).map (fun cs => ⟨cs⟩)

/-- crypto_utils `encrypt_refresh_token`. -/
def encrypt_refresh_token (key : Nat) (refresh_token : String) : String :=
  fernetEncode key refresh_token

/-- crypto_utils `decrypt_refresh_token`: empty ciphertext raises
`ValueError`; a ciphertext Fernet rejects raises `InvalidToken`. -/
def decrypt_refresh_token (key : Nat) (refresh_token_enc : String) :
    Except CryptoError String :=
  if refresh_token_enc = "" then .error .emptyToken
  else
    match fernetDecode key refresh_token_enc with
    | some pt => .ok pt
    | none => .error .invalidToken

/-!
date_utils.py and the inline epoch-millisecond computation of
worker.py.  `datetime.fromisoformat` is embedded for the grammar the
code exercises (`YYYY-MM-DD[THH:MM[:SS[.fff[fff]]]][±HH:MM]`, the `Z`
suffix having been rewritten to `+00:00` by the callers, exactly as in
the source).  Calendar arithmetic uses the standard proleptic-Gregorian
civil-day conversion.  All arithmetic is exact integer arithmetic; the
float detour of `dt.timestamp() * 1000` agrees with it on the
whole-millisecond timestamps this system handles.  The system tzdata
consulted by `zoneinfo.ZoneInfo` is external input, modelled as a map
from IANA name to a UTC-seconds-indexed offset function.
-/

/-- Components of a parsed ISO-8601 timestamp. -/
structure IsoParts where
  year : Nat
  month : Nat
  day : Nat
  hour : Nat
  minute : Nat
  second : Nat
  usec : Nat
  offsetSecs : Option Int
deriving DecidableEq

/-- Numeric value of a decimal digit character. -/
def digitVal (c : Char) : Option Nat :=
  if c.isDigit then some (c.toNat - 48) else none

/-- Read exactly `n` decimal digits from the front of a char list. -/
def readDigits : Nat → List Char → Option (Nat × List Char)
  | 0, cs => some (0, cs)
  | Nat.succ n, c :: cs =>
    match digitVal c with
    | some d =>
      match readDigits n cs with
      | some (v, rest) => some (d * 10 ^ n + v, rest)
      | none => none
    | none => none
  | Nat.succ _, [] => none

/-- Is `y` a Gregorian leap year? -/
def isLeapYear (y : Nat) : Bool :=
  (y % 4 = 0 && y % 100 ≠ 0) || y % 400 = 0

/-- Number of days in month `m` of year `y`. -/
def daysInMonth (y m : Nat) : Nat :=
  if m = 2 then (if isLeapYear y then 29 else 28)
  else if m = 4 ∨ m = 6 ∨ m = 9 ∨ m = 11 then 30
  else 31

/-- Read the fractional-second part: `.fff` or `.ffffff` (the forms
`datetime.fromisoformat` accepts), yielding microseconds. -/
def readFraction : List Char → Option (Nat × List Char)
  | '.' :: cs =>
    match readDigits 6 cs with
    | some (v, rest) => some (v, rest)
    | none =>
      match readDigits 3 cs with
      | some (v, rest) => some (v * 1000, rest)
      | none => none
  | cs => some (0, cs)

/-- Read a trailing UTC offset `+HH:MM` / `-HH:MM`, if present. -/
def readOffset : List Char → Option (Option Int × List Char)
  | [] => some (none, [])
  | c :: cs =>
    if c = '+' ∨ c = '-' then
      match readDigits 2 cs with
      | some (oh, rest) =>
        match rest with
        | ':' :: rest2 =>
          match readDigits 2 rest2 with
          | some (om, rest3) =>
            let secs : Int := (oh * 3600 + om * 60 : Nat)
            some (some (if c = '-' then -secs else secs), rest3)
          | none => none
        | _ => none
      | none => none
    else none

/-- Read the time-of-day part `HH:MM[:SS[.frac]]`. -/
def readClock (cs : List Char) : Option (Nat × Nat × Nat × Nat × List Char) :=
  match readDigits 2 cs with
  | some (h, ':' :: cs1) =>
    match readDigits 2 cs1 with
    | some (mi, cs2) =>
      match cs2 with
      | ':' :: cs3 =>
        match readDigits 2 cs3 with
        | some (s, cs4) =>
          match readFraction cs4 with
          | some (us, cs5) => some (h, mi, s, us, cs5)
          | none => none
        | none => none
      | _ => some (h, mi, 0, 0, cs2)
    | none => none
  | _ => none

/-- `datetime.fromisoformat` on the grammar the worker exercises; `none`
models the `ValueError` Python raises on a malformed string. -/
def pyFromIsoformat (s : String) : Option IsoParts :=
  match readDigits 4 s.data with
  | some (y, '-' :: cs1) =>
    match readDigits 2 cs1 with
    | some (mo, '-' :: cs2) =>
      match readDigits 2 cs2 with
      | some (d, cs3) =>
        if 1 ≤ mo ∧ mo ≤ 12 ∧ 1 ≤ d ∧ d ≤ daysInMonth y mo then
          match cs3 with
          | [] => some ⟨y, mo, d, 0, 0, 0, 0, none⟩
          | sep :: cs4 =>
            if sep = 'T' ∨ sep = ' ' then
              match readClock cs4 with
              | some (h, mi, sec, us, cs5) =>
                if h ≤ 23 ∧ mi ≤ 59 ∧ sec ≤ 59 then
                  match readOffset cs5 with
                  | some (off, []) => some ⟨y, mo, d, h, mi, sec, us, off⟩
                  | _ => none
                else none
              | none => none
            else none
        else none
      | none => none
    | _ => none
  | _ => none

/-- Days from 1970-01-01 to civil date `(y, m, d)`, `0 ≤ y ≤ 9999`
(Howard Hinnant's `days_from_civil`, shifted by 400 years to stay in `Nat`). -/
def daysFromCivil (y m d : Nat) : Int :=
  let ys := if m ≤ 2 then y + 399 else y + 400
  let era := ys / 400
  let yoe := ys % 400
  let mp := (m + 9) % 12
  let doy := (153 * mp + 2) / 5 + d - 1
  let doe := yoe * 365 + yoe / 4 - yoe / 100 + doy
  (era : Int) * 146097 + (doe : Int) - 719468 - 146097

/-- Civil date `(y, m, d)` of the day `days` after 1970-01-01
(Howard Hinnant's `civil_from_days`). -/
def civilFromDays (days : Int) : Nat × Nat × Nat :=
  let z := (days + 719468).toNat
  let era := z / 146097
  let doe := z % 146097
  let yoe := (doe - doe / 1460 + doe / 36524 - doe / 146096) / 365
  let y := yoe + era * 400
  let doy := doe - (365 * yoe + yoe / 4 - yoe / 100)
  let mp := (5 * doy + 2) / 153
  let d := doy - (153 * mp + 2) / 5 + 1
  let m := if mp < 10 then mp + 3 else mp - 9
  (if m ≤ 2 then y + 1 else y, m, d)

/-- POSIX seconds of a parsed timestamp (naive timestamps are treated as
UTC, mirroring the `dt.tzinfo is None` branches in the source). -/
def partsToUtcSecs (p : IsoParts) : Int :=
  daysFromCivil p.year p.month p.day * 86400
    + (p.hour * 3600 + p.minute * 60 + p.second : Nat)
    - (p.offsetSecs.getD 0)

/-- Inline computation of worker.py lines 193-199: parse `played_at`
(after `replace("Z", "+00:00")`) and take `int(dt.timestamp() * 1000)`. -/
def playedAtToMs (played_at : String) : Option Int :=
  match pyFromIsoformat (pyReplace played_at "Z" "+00:00") with
  | some p => some (partsToUtcSecs p * 1000 + (p.usec / 1000 : Nat))
  | none => none

/-- date_utils `parse_spotify_played_at` (the aware-UTC datetime is kept
as parsed components plus the invariant offset handling above). -/
def parse_spotify_played_at (played_at_iso : String) : Option IsoParts :=
  pyFromIsoformat (pyReplace played_at_iso "Z" "+00:00")

/-- date_utils `MONTH_NAMES_EN`. -/
def monthNameEn (m : Nat) : String :=
  match m with
  | 1 => "January" | 2 => "February" | 3 => "March" | 4 => "April"
  | 5 => "May" | 6 => "June" | 7 => "July" | 8 => "August"
  | 9 => "September" | 10 => "October" | 11 => "November" | 12 => "December"
  | _ => ""

/-- The system tz database behind `zoneinfo.ZoneInfo`: IANA name to a
UTC-seconds-indexed offset (in seconds); `none` models
`ZoneInfoNotFoundError`. -/
abbrev TzDb := String → Option (Int → Int)

/-- A tz database that only knows UTC (always available in Python). -/
def utcOnlyTzDb : TzDb :=
  fun n => if n = "UTC" then some (fun _ => 0) else none

/-- Failure of `format_log_datetime`: `ValueError` from
`datetime.fromisoformat`, or `ZoneInfoNotFoundError` from `ZoneInfo`. -/
inductive FmtError where
  | badIso
  | badTz
deriving DecidableEq

/-- date_utils `format_log_datetime`:
`{Month} {day}, {year} at {hour12}:{minute:02d}{AMPM}` in the user's zone. -/
def format_log_datetime (played_at_iso : String) (tzName : String) (tzdb : TzDb) :
    Except FmtError String :=
  match parse_spotify_played_at played_at_iso with
  | none => .error .badIso
  | some p =>
    match tzdb tzName with
    | none => .error .badTz
    | some off =>
      let utcSecs := partsToUtcSecs p
      let localSecs := utcSecs + off utcSecs
      let days := Int.ediv localSecs 86400
      let sod := (Int.emod localSecs 86400).toNat
      let ymd := civilFromDays days
      let hour24 := sod / 3600
      let minute := sod % 3600 / 60
      let amPm := if hour24 < 12 then "AM" else "PM"
      let hour12a := hour24 % 12
      let hour12 := if hour12a = 0 then 12 else hour12a
      let minuteStr := (if minute < 10 then "0" else "") ++ toString minute
      .ok (monthNameEn ymd.2.1 ++ " " ++ toString ymd.2.2 ++ ", "
        ++ toString ymd.1 ++ " at " ++ toString hour12 ++ ":" ++ minuteStr ++ amPm)

/-!
sheet_structure.py: section titles, headers, AppState defaults, schema
preparation and the state/log/dedupe accessors.  Functions that the
source runs against live worksheet handles are threaded through the
`Spreadsheet` value instead; a function that both reads and repairs
returns the repaired spreadsheet alongside its result.
-/

def LOG_SHEET_TITLE : String := "log"

def APP_STATE_TITLE : String := "__app_state"

def DEDUPE_TITLE : String := "__dedupe"

def TRACKS_TITLE : String := "__tracks"

def ARTISTS_TITLE : String := "__artists"

def LOG_HEADERS : List String := ["Date", "Track", "Artist", "Spotify ID", "URL"]

def APP_STATE_HEADERS : List String := ["key", "value"]

def DEDUPE_HEADERS : List String := ["dedupe_key"]

/-- sheet_structure `APP_STATE_DEFAULTS` (dict literal order preserved). -/
def APP_STATE_DEFAULTS : PyDict :=
  [("enabled", "false"), ("timezone", "UTC"), ("last_synced_after_ts", "0"),
   ("spotify_user_id", ""), ("refresh_token_enc", ""), ("created_at", ""),
   ("updated_at", ""), ("last_error", "")]

/-- sheet_structure dataclass `AppState`. -/
structure AppState where
  enabled : Bool
  timezone : String
  last_synced_after_ts : String
  spotify_user_id : String
  refresh_token_enc : String
  created_at : String
  updated_at : String
  last_error : String
deriving DecidableEq

/-- sheet_structure `_ensure_headers` applied to the worksheet titled `t`. -/
def ensure_headers (ss : Spreadsheet) (t : String) (expected : List String) :
    Spreadsheet :=
  let ws := getWs ss t
  if row_values ws 1 = expected then ss else setWs ss t (ws.setRow 1 expected)

/-- Initial `__app_state` rows written by `prepare_user_sheet` when the
state section has no records: defaults, with `created_at`/`updated_at`
stamped `now_iso` and `timezone` overridden by a truthy argument. -/
def appStateInitRows (now_iso : String) (tzOpt : Option String) : List (List String) :=
  APP_STATE_DEFAULTS.map (fun kv =>
    let v := kv.2
    let v := if kv.1 = "created_at" ∨ kv.1 = "updated_at" then now_iso else v
    let v := if kv.1 = "timezone" then
        (match tzOpt with
         | some tz => if tz = "" then v else tz
         | none => v)
      else v
    [kv.1, v])

/-- sheet_structure `prepare_user_sheet`. -/
def prepare_user_sheet (ss0 : Spreadsheet) (now_iso : String)
    (tzOpt : Option String) : Spreadsheet :=
  let ss := get_or_create_worksheet ss0 LOG_SHEET_TITLE
  let ss := ensure_headers ss LOG_SHEET_TITLE LOG_HEADERS
  let ss := get_or_create_worksheet ss APP_STATE_TITLE
  let ss := ensure_headers ss APP_STATE_TITLE APP_STATE_HEADERS
  let ss := set_hidden ss APP_STATE_TITLE true
  let existing := get_all_records (getWs ss APP_STATE_TITLE)
  let ss :=
    if existing = [] then
      let rows := appStateInitRows now_iso tzOpt
      if rows = [] then ss
      else modifyWs ss APP_STATE_TITLE (fun w => w.appendDataRows rows)
    else ss
  let ss := get_or_create_worksheet ss DEDUPE_TITLE
  let ss := ensure_headers ss DEDUPE_TITLE DEDUPE_HEADERS
  let ss := set_hidden ss DEDUPE_TITLE true
  let ss := get_or_create_worksheet ss TRACKS_TITLE
  let ss := set_hidden ss TRACKS_TITLE true
  let ss := get_or_create_worksheet ss ARTISTS_TITLE
  let ss := set_hidden ss ARTISTS_TITLE true
  ss

/-- The dict `{row["key"]: str(row.get("value", "")) for row in rows}`
built by `read_app_state` / `write_app_state`. -/
def stateDictOfRecords (recs : List PyDict) : PyDict :=
  recs.foldl (fun acc r => pyInsert acc (pyGet r "key" "") (pyGet r "value" "")) []

/-- Fill missing AppState keys with their defaults (`setdefault` loop). -/
def withStateDefaults (d : PyDict) : PyDict :=
  APP_STATE_DEFAULTS.foldl (fun acc kv => pySetdefault acc kv.1 kv.2) d

/-- sheet_structure `read_app_state` (also returns the spreadsheet, since
the read repairs the worksheet and headers on the way). -/
def read_app_state (ss0 : Spreadsheet) : AppState × Spreadsheet :=
  let ss := get_or_create_worksheet ss0 APP_STATE_TITLE
  let ss := ensure_headers ss APP_STATE_TITLE APP_STATE_HEADERS
  let recs := get_all_records (getWs ss APP_STATE_TITLE)
  let data := withStateDefaults (stateDictOfRecords recs)
  (⟨asciiLower (pyGet data "enabled" "false") = "true",
    pyGet data "timezone" "UTC",
    pyGet data "last_synced_after_ts" "0",
    pyGet data "spotify_user_id" "",
    pyGet data "refresh_token_enc" "",
    pyGet data "created_at" "",
    pyGet data "updated_at" "",
    pyGet data "last_error" ""⟩, ss)

/-- sheet_structure `write_app_state`. -/
def write_app_state (ss0 : Spreadsheet) (state_updates : PyDict) : Spreadsheet :=
  let ss := get_or_create_worksheet ss0 APP_STATE_TITLE
  let ss := ensure_headers ss APP_STATE_TITLE APP_STATE_HEADERS
  let recs := get_all_records (getWs ss APP_STATE_TITLE)
  let current := withStateDefaults (pyMerge (stateDictOfRecords recs) state_updates)
  let data_rows := current.map (fun kv => [kv.1, kv.2])
  if data_rows = [] then ss
  else
    modifyWs ss APP_STATE_TITLE
      (fun w => (w.resizeRows (data_rows.length + 1)).setRowsFrom 2 data_rows)

/-- sheet_structure `read_recent_dedupe_keys` (also returns the repaired
spreadsheet). -/
def read_recent_dedupe_keys (ss0 : Spreadsheet) (limit_rows : Int) :
    List String × Spreadsheet :=
  let ss := get_or_create_worksheet ss0 DEDUPE_TITLE
  let ss := ensure_headers ss DEDUPE_TITLE DEDUPE_HEADERS
  let allValues := col_values (getWs ss DEDUPE_TITLE) 1
  let keys := allValues.drop 1
  (if limit_rows ≤ 0 ∨ (keys.length : Int) ≤ limit_rows then keys
   else takeLastN limit_rows.toNat keys, ss)

/-- sheet_structure `append_dedupe_keys`. -/
def append_dedupe_keys (ss0 : Spreadsheet) (keys : List String) : Spreadsheet :=
  if keys = [] then ss0
  else
    let ss := get_or_create_worksheet ss0 DEDUPE_TITLE
    let ss := ensure_headers ss DEDUPE_TITLE DEDUPE_HEADERS
    modifyWs ss DEDUPE_TITLE (fun w => w.appendDataRows (keys.map (fun k => [k])))

/-- sheet_structure `append_log_rows`. -/
def append_log_rows (ss0 : Spreadsheet) (rows : List (List String)) : Spreadsheet :=
  if rows = [] then ss0
  else
    let ss := get_or_create_worksheet ss0 LOG_SHEET_TITLE
    let ss := ensure_headers ss LOG_SHEET_TITLE LOG_HEADERS
    modifyWs ss LOG_SHEET_TITLE (fun w => w.appendDataRows rows)

/-!
spotify_client.py.  HTTP transport is external input: the token
endpoint's response to a refresh request, the profile response and the
recently-played payload are supplied by the environment.  A payload is
modelled post-`resp.json()`; `raise_for_status` is an `ok` flag carrying
the `str(exc)` of the `requests` error.  `parse_recently_played_items`
output records are modelled directly (`PlayItem`), the provider being the
source of every field.
-/

/-- Exceptions a pass can raise, with enough payload to recover the
Python `str(exc)` recorded by the outer loop. -/
inductive SyncError where
  | missingRefreshToken
  | emptyToken
  | invalidToken
  | httpError (msg : String)
  | isoParseError (s : String)
  | tzNotFound (name : String)
  | sheetNotFound (sheetId : String)
deriving DecidableEq

/-- Python `str(exc)` for each modelled exception (RuntimeError,
ValueError and InvalidToken carry the exact message strings from the
source; transport and library errors carry their own message). -/
def errMsg : SyncError → String
  | .missingRefreshToken => "Missing refresh_token_enc in __app_state"
  | .emptyToken => "Empty encrypted refresh token"
  | .invalidToken => "Failed to decrypt refresh token"
  | .httpError m => m
  | .isoParseError s => "Invalid isoformat string: " ++ s
  | .tzNotFound n => "No time zone found with key " ++ n
  | .sheetNotFound i => "Spreadsheet not found: " ++ i

/-- Lift a `decrypt_refresh_token` failure to the pass error type. -/
def cryptoErrToSync : CryptoError → SyncError
  | .emptyToken => .emptyToken
  | .invalidToken => .invalidToken

/-- spotify_client dataclass `SpotifyTokens`. -/
structure SpotifyTokens where
  access_token : String
  refresh_token : String
  expires_in : Int
  token_type : String
  scope : Option String
deriving DecidableEq

/-- JSON payload of the token endpoint's refresh response, plus the HTTP
status outcome (`ok = false` models `raise_for_status` raising, with
`failMsg` the error's string). -/
structure RefreshPayload where
  ok : Bool
  failMsg : String
  access_token : String
  refresh_token : Option String
  expires_in : Int
  token_type : Option String
  scope : Option String
deriving DecidableEq

/-- spotify_client `refresh_access_token`, given the endpoint's response:
a missing `refresh_token` field falls back to the input token. -/
def refresh_access_token (refresh_token : String) (resp : RefreshPayload) :
    Except SyncError SpotifyTokens :=
  if resp.ok = false then .error (.httpError resp.failMsg)
  else
    .ok ⟨resp.access_token, resp.refresh_token.getD refresh_token,
         resp.expires_in, resp.token_type.getD "Bearer", resp.scope⟩

/-- One record of `parse_recently_played_items`: `played_at`/`track_id`
are `Option` (the provider may omit them), the rest plain strings. -/
structure PlayItem where
  played_at : Option String
  track_id : Option String
  track_name : String
  artist_names : String
  spotify_url : String
deriving DecidableEq

/-- Python falsiness of an optional string (`not x`). -/
def strFalsy : Option String → Bool
  | none => true
  | some s => s = ""

/-!
registry.py and the registry helpers of worker.py.
-/

def REGISTRY_TITLE : String := "registry"

def REGISTRY_HEADERS : List String :=
  ["user_sheet_id", "enabled", "created_at", "last_seen_at", "last_sync_at", "last_error"]

/-- Index of `k` in `headers` under Python's `{h: i for i, h in
enumerate(headers)}` (the last occurrence wins). -/
def lastIndexOfKey (headers : List String) (k : String) : Option Nat :=
  (headers.enum.filter (fun ih => ih.2 = k)).getLast?.map (fun ih => ih.1)

/-- registry `_update_registry_row` (= worker `_update_registry_row` at
`row_num = row_index + 1`): whole-row read-modify-write of row `row_num`. -/
def update_registry_row (ws : Worksheet) (row_num : Nat) (updates : PyDict) :
    Worksheet :=
  let headers := row_values ws 1
  let rowVals := row_values ws row_num
  let rowVals := rowVals ++ List.replicate (headers.length - rowVals.length) ""
  let rowVals := updates.foldl
    (fun r kv =>
      match lastIndexOfKey headers kv.1 with
      | some i => r.set i kv.2
      | none => r) rowVals
  ws.setRow row_num rowVals

/-- registry `_ensure_registry_worksheet` given the opened registry
spreadsheet: get-or-create the `registry` worksheet and repair headers. -/
def ensure_registry_worksheet (ss0 : Spreadsheet) : Spreadsheet :=
  let ss := get_or_create_worksheet ss0 REGISTRY_TITLE
  let ws := getWs ss REGISTRY_TITLE
  if row_values ws 1 = REGISTRY_HEADERS then ss
  else setWs ss REGISTRY_TITLE (ws.setRow 1 REGISTRY_HEADERS)

/-- The scan of `ensure_registry_entry`'s for-loop: sheet row number of
the first record whose stripped `user_sheet_id` matches. -/
def registryMatchRow : List PyDict → Nat → String → Option Nat
  | [], _, _ => none
  | r :: rest, idx, usid =>
    if pyStrip (pyGet r "user_sheet_id" "") = usid then some idx
    else registryMatchRow rest (idx + 1) usid

/-- registry `ensure_registry_entry` on the registry spreadsheet, with
`now_utc_iso()` supplied as `now_iso`. -/
def ensure_registry_entry (ss0 : Spreadsheet) (user_sheet_id : String)
    (now_iso : String) : Spreadsheet :=
  let ss := ensure_registry_worksheet ss0
  let ws := getWs ss REGISTRY_TITLE
  let rows := get_all_records ws
  match registryMatchRow rows 2 user_sheet_id with
  | some idx =>
    setWs ss REGISTRY_TITLE (update_registry_row ws idx [("last_seen_at", now_iso)])
  | none =>
    let newRow := [user_sheet_id, "false", now_iso, now_iso, "", ""]
    setWs ss REGISTRY_TITLE (ws.appendDataRows [newRow])

/-!
worker.py.  A pass's external inputs (config values, the token
endpoint's refresh response, the profile response, the recently-played
payload as a function of the `after` parameter, the tz database, and the
current wall-clock `now_utc_iso()` string) are collected in `SyncEnv`.
`get_recently_played` + `parse_recently_played_items` are the provider
boundary: their composite result, the list of parsed `PlayItem`s, is the
environment's `fetchResp`.  A raising pass returns the error together
with the partially mutated tenant store, since sheet writes made before
the exception have already been committed remotely.
-/

/-- Worker-relevant fields of config.py `AppConfig`. -/
structure AppConfig where
  fernet_key : Nat
  dedupe_read_rows : Int
  spotify_recently_played_limit : Int
  spotify_recently_played_lookback_minutes : Int

/-- All external inputs consumed by one `sync_single_user` pass. -/
structure SyncEnv where
  cfg : AppConfig
  now : String
  refreshResp : RefreshPayload
  profileResp : Except String String
  fetchResp : Option Int → Except String (List PlayItem)
  tzdb : TzDb

/-- Digits of a Python `int()` literal (no sign), `none` on a malformed one. -/
def pyIntDigits : List Char → Option Nat
  | [] => none
  | cs => cs.foldl
      (fun acc c =>
        match acc, digitVal c with
        | some v, some d => some (v * 10 + d)
        | _, _ => none)
      (some 0)

/-- Python `int(s)`: strip, optional sign, decimal digits; `none` models
the `ValueError` branch `_compute_after_ms` catches. -/
def pyIntOfString (s : String) : Option Int :=
  match (pyStrip s).data with
  | '+' :: cs => (pyIntDigits cs).map (fun n => (n : Int))
  | '-' :: cs => (pyIntDigits cs).map (fun n => -(n : Int))
  | cs => (pyIntDigits cs).map (fun n => (n : Int))

/-- worker `_compute_after_ms`. -/
def compute_after_ms (state : AppState) (lookback_minutes : Int) : Option Int :=
  let last_ts := (pyIntOfString state.last_synced_after_ts).getD 0
  if last_ts ≤ 0 then none
  else some (max 0 (last_ts - lookback_minutes * 60 * 1000))

/-- worker `_make_dedupe_key`. -/
def make_dedupe_key (spotify_user_id played_at_iso : String)
    (track_id : Option String) : String :=
  spotify_user_id ++ "|" ++ played_at_iso ++ "|" ++ track_id.getD ""

/-- The per-item for-loop of `sync_single_user` (worker.py lines
164-201), accumulating log rows, dedupe keys and the maximum accepted
played-at millisecond timestamp. -/
def processItemsGo (uid tzSel : String) (tzdb : TzDb) (recent : List String) :
    List PlayItem → List (List String) → List String → Int →
    Except SyncError (List (List String) × List String × Int)
  | [], rows, keys, mx => .ok (rows.reverse, keys.reverse, mx)
  | item :: rest, rows, keys, mx =>
    if strFalsy item.played_at || strFalsy item.track_id then
      processItemsGo uid tzSel tzdb recent rest rows keys mx
    else
      let pa := item.played_at.getD ""
      let dk := make_dedupe_key uid pa item.track_id
      if recent.contains dk then
        processItemsGo uid tzSel tzdb recent rest rows keys mx
      else
        match format_log_datetime pa tzSel tzdb with
        | .error .badIso => .error (.isoParseError (pyReplace pa "Z" "+00:00"))
        | .error .badTz => .error (.tzNotFound tzSel)
        | .ok date_str =>
          let logRow := [date_str, item.track_name, item.artist_names,
                         item.track_id.getD "", item.spotify_url]
          match playedAtToMs pa with
          | none => .error (.isoParseError (pyReplace pa "Z" "+00:00"))
          | some ms =>
            processItemsGo uid tzSel tzdb recent rest (logRow :: rows)
              (dk :: keys) (if ms > mx then ms else mx)

/-- The dedupe/append loop over all fetched items. -/
def processItems (uid tzSel : String) (tzdb : TzDb) (recent : List String)
    (items : List PlayItem) :
    Except SyncError (List (List String) × List String × Int) :=
  processItemsGo uid tzSel tzdb recent items [] [] 0

/-- worker `sync_single_user`, lines 129-148: fail fast on a missing
encrypted refresh token, decrypt it, refresh the access token, persist a
rotated refresh token, and ensure `spotify_user_id` is present; returns
the account id and the store after these writes. -/
def syncAuthAndWrites (env : SyncEnv) (state : AppState) (ss : Spreadsheet) :
    Except (SyncError × Spreadsheet) (String × Spreadsheet) :=
  if state.refresh_token_enc = "" then .error (.missingRefreshToken, ss)
  else
    match decrypt_refresh_token env.cfg.fernet_key state.refresh_token_enc with
    | .error e => .error (cryptoErrToSync e, ss)
    | .ok refresh_token =>
      match refresh_access_token refresh_token env.refreshResp with
      | .error e => .error (e, ss)
      | .ok tokens =>
        let ss1 :=
          if tokens.refresh_token ≠ refresh_token then
            write_app_state ss
              [("refresh_token_enc",
                encrypt_refresh_token env.cfg.fernet_key tokens.refresh_token)]
          else ss
        if state.spotify_user_id = "" then
          match env.profileResp with
          | .error m => .error (.httpError m, ss1)
          | .ok pid => .ok (pid, write_app_state ss1 [("spotify_user_id", pid)])
        else .ok (state.spotify_user_id, ss1)

/-- worker `sync_single_user`, lines 203-210: append the accepted rows
and keys, then write `updated_at`, a cleared `last_error`, and — whenever
the maximum accepted timestamp is truthy — the new cursor. -/
def syncCommit (env : SyncEnv) (ss2 : Spreadsheet)
    (res : List (List String) × List String × Int) : Spreadsheet :=
  let ss3 :=
    if res.1 = [] then ss2
    else append_dedupe_keys (append_log_rows ss2 res.1) res.2.1
  let updates : PyDict := [("updated_at", env.now), ("last_error", "")]
  let updates :=
    if res.2.2 = 0 then updates
    else updates ++ [("last_synced_after_ts", toString res.2.2)]
  write_app_state ss3 updates

/-- worker `sync_single_user`, lines 150-210: fetch the recently-played
page after the lookback-adjusted cursor, early-return on an empty page,
dedupe against the recent-key window, and commit. -/
def syncFetchCommit (env : SyncEnv) (state : AppState) (spotify_user_id : String)
    (ss1 : Spreadsheet) : Except (SyncError × Spreadsheet) Spreadsheet :=
  let after_ms :=
    compute_after_ms state env.cfg.spotify_recently_played_lookback_minutes
  match env.fetchResp after_ms with
  | .error m => .error (.httpError m, ss1)
  | .ok items =>
    if items = [] then .ok (write_app_state ss1 [("updated_at", env.now)])
    else
      let rq := read_recent_dedupe_keys ss1 env.cfg.dedupe_read_rows
      let tzSel := if state.timezone = "" then "UTC" else state.timezone
      match processItems spotify_user_id tzSel env.tzdb rq.1 items with
      | .error e => .error (e, rq.2)
      | .ok res => .ok (syncCommit env rq.2 res)

/-- worker `sync_single_user` on an opened tenant store: prepare the
schema, read state, authenticate and persist credential/account writes,
then fetch, dedupe and commit. -/
def sync_single_user (env : SyncEnv) (ss0 : Spreadsheet) :
    Except (SyncError × Spreadsheet) Spreadsheet :=
  match syncAuthAndWrites env
      (read_app_state (prepare_user_sheet ss0 env.now none)).1
      (read_app_state (prepare_user_sheet ss0 env.now none)).2 with
  | .error e => .error e
  | .ok p => syncFetchCommit env
      (read_app_state (prepare_user_sheet ss0 env.now none)).1 p.1 p.2

/-- Is `c` in the sheet-id character class `[a-zA-Z0-9-_]`? -/
def sheetIdChar (c : Char) : Bool :=
  c.isAlphanum || c = '-' || c = '_'

/-- First match of the regex `/spreadsheets/d/([a-zA-Z0-9-_]+)` in a
char list: the captured id group. -/
def findSheetIdMatch : List Char → Option (List Char)
  | [] => none
  | c :: cs =>
    let pat := "/spreadsheets/d/".data
    if pat.isPrefixOf (c :: cs) then
      let grp := ((c :: cs).drop pat.length).takeWhile sheetIdChar
      if grp = [] then findSheetIdMatch cs else some grp
    else findSheetIdMatch cs

/-- sheets_client `extract_sheet_id`. -/
def extract_sheet_id (sheet_url_or_id : String) : String :=
  let s := pyStrip sheet_url_or_id
  match findSheetIdMatch s.data with
  | some grp => ⟨grp⟩
  | none => s

/-- The world the batch job runs against: the registry spreadsheet plus
every tenant spreadsheet keyed by sheet id. -/
structure SyncWorld where
  registry : Spreadsheet
  userSheets : List (String × Spreadsheet)
deriving DecidableEq

/-- `client.open_by_key(sid)` over the modelled world. -/
def lookupUserSheet (l : List (String × Spreadsheet)) (sid : String) :
    Option Spreadsheet :=
  (l.find? (fun p => p.1 = sid)).map (fun p => p.2)

/-- Store back the mutated tenant spreadsheet. -/
def setUserSheet (l : List (String × Spreadsheet)) (sid : String)
    (ss : Spreadsheet) : List (String × Spreadsheet) :=
  l.map (fun p => if p.1 = sid then (sid, ss) else p)

/-- worker `_ensure_registry_headers`. -/
def ensure_registry_headers_ws (ws : Worksheet) : Worksheet :=
  if row_values ws 1 = REGISTRY_HEADERS then ws
  else ws.setRow 1 REGISTRY_HEADERS

/-- `open_user_sheet` + `sync_single_user(user_sheet_id)` over the world:
on failure the partially mutated tenant store is still persisted. -/
def openAndSyncUser (env : SyncEnv) (sheets : List (String × Spreadsheet))
    (raw : String) :
    Except (SyncError × List (String × Spreadsheet)) (List (String × Spreadsheet)) :=
  let sid := extract_sheet_id raw
  match lookupUserSheet sheets sid with
  | none => .error (.sheetNotFound sid, sheets)
  | some uss =>
    match sync_single_user env uss with
    | .ok uss2 => .ok (setUserSheet sheets sid uss2)
    | .error p => .error (p.1, setUserSheet sheets sid p.2)

/-- One iteration of the `sync_all_enabled_users` for-loop, for the
record `row` living at sheet row `idx`: skips disabled or blank rows,
otherwise syncs the tenant and records success or failure into the
registry row (worker.py lines 78-97). -/
def syncRegistryRow (envOf : String → SyncEnv) (now : String) (row : PyDict)
    (idx : Nat) (ws : Worksheet) (sheets : List (String × Spreadsheet)) :
    Worksheet × List (String × Spreadsheet) :=
  if asciiLower (pyGet row "enabled" "") ≠ "true" then (ws, sheets)
  else
    let user_sheet_id := pyStrip (pyGet row "user_sheet_id" "")
    if user_sheet_id = "" then (ws, sheets)
    else
      match openAndSyncUser (envOf user_sheet_id) sheets user_sheet_id with
      | .ok sheets2 =>
        (update_registry_row ws idx [("last_sync_at", now), ("last_error", "")], sheets2)
      | .error p =>
        (update_registry_row ws idx [("last_error", errMsg p.1)], p.2)

/-- The `for idx, row in enumerate(rows, start=2)` loop. -/
def syncRegistryRows (envOf : String → SyncEnv) (now : String) :
    List PyDict → Nat → Worksheet → List (String × Spreadsheet) →
    Worksheet × List (String × Spreadsheet)
  | [], _, ws, sheets => (ws, sheets)
  | row :: rest, idx, ws, sheets =>
    let p := syncRegistryRow envOf now row idx ws sheets
    syncRegistryRows envOf now rest (idx + 1) p.1 p.2

/-- worker `sync_all_enabled_users`: the outer batch loop.  `envOf` gives
each tenant's external inputs; `now` is `now_utc_iso()` for the registry
status stamps. -/
def sync_all_enabled_users (envOf : String → SyncEnv) (now : String)
    (w : SyncWorld) : Except SyncError SyncWorld :=
  match findWs w.registry REGISTRY_TITLE with
  | none => .error (.sheetNotFound REGISTRY_TITLE)
  | some ws0 =>
    let ws1 := ensure_registry_headers_ws ws0
    let rows := get_all_records ws1
    let p := syncRegistryRows envOf now rows 2 ws1 w.userSheets
    .ok ⟨setWs w.registry REGISTRY_TITLE p.1, p.2⟩

/-!
Observables and well-formedness predicates used by the theorems, plus
concrete fixtures for counterexamples and witnesses.
-/

/-- The log section's grid. -/
def logCells (ss : Spreadsheet) : List (List String) :=
  (getWs ss LOG_SHEET_TITLE).cells

/-- The dedupe section's grid. -/
def dedupeCells (ss : Spreadsheet) : List (List String) :=
  (getWs ss DEDUPE_TITLE).cells

/-- Every dedupe key in the dedupe section, in append order. -/
def dedupeColKeys (ss : Spreadsheet) : List String :=
  (col_values (getWs ss DEDUPE_TITLE) 1).drop 1

/-- The state section interpreted as a dict, without defaults. -/
def rawStateDict (ss : Spreadsheet) : PyDict :=
  stateDictOfRecords (get_all_records (getWs ss APP_STATE_TITLE))

/-- Value of one AppState key of a tenant store, defaults filled in. -/
def appStateValue (ss : Spreadsheet) (k : String) : String :=
  pyGet (withStateDefaults (rawStateDict ss)) k ""

/-- The tenant store's state section is present with the exact header
row, so that reads and writes interpret it consistently. -/
def AppStateWF (ss : Spreadsheet) : Prop :=
  ∃ w, findWs ss APP_STATE_TITLE = some w ∧ row_values w 1 = APP_STATE_HEADERS

/-- An established store: state section well-formed and already holding
key/value records (so `prepare_user_sheet` does not re-initialize it). -/
def AppStateReadyWF (ss : Spreadsheet) : Prop :=
  AppStateWF ss ∧ get_all_records (getWs ss APP_STATE_TITLE) ≠ []

/-- AppState as read at the start of a pass, after schema preparation. -/
def passPreparedState (env : SyncEnv) (ss : Spreadsheet) : AppState :=
  (read_app_state (prepare_user_sheet ss env.now none)).1

/-- The `after` cursor parameter the pass sends to the provider. -/
def passAfterMs (env : SyncEnv) (ss : Spreadsheet) : Option Int :=
  compute_after_ms (passPreparedState env ss)
    env.cfg.spotify_recently_played_lookback_minutes

/-- The spotify user id the pass dedupes under. -/
def passUid (env : SyncEnv) (ss : Spreadsheet) : String :=
  let st := passPreparedState env ss
  if st.spotify_user_id = "" then
    (match env.profileResp with
     | .ok pid => pid
     | .error _ => "")
  else st.spotify_user_id

/-- The timezone name the pass formats log dates in. -/
def passTz (env : SyncEnv) (ss : Spreadsheet) : String :=
  let st := passPreparedState env ss
  if st.timezone = "" then "UTC" else st.timezone

/-- The recent-key window the pass dedupes against. -/
def passWindow (env : SyncEnv) (ss : Spreadsheet) : List String :=
  (read_recent_dedupe_keys (prepare_user_sheet ss env.now none)
    env.cfg.dedupe_read_rows).1

/-- The store a pass leaves behind, whether it succeeded or raised. -/
def passResult (r : Except (SyncError × Spreadsheet) Spreadsheet) : Spreadsheet :=
  match r with
  | .ok s => s
  | .error p => p.2

/-- Field of a registry row under the canonical registry headers. -/
def registryField (row : List String) (k : String) : String :=
  pyGet (recordOfRow REGISTRY_HEADERS row) k ""

/-- Fixture: worker-tuning config with the documented defaults and
Fernet key 1. -/
def sampleConfig : AppConfig := ⟨1, 5000, 50, 60⟩

/-- Fixture: successful refresh response without token rotation. -/
def sampleRefresh : RefreshPayload := ⟨true, "", "at", none, 3600, none, none⟩

/-- Fixture: pass environment with profile id `u1` and a given provider. -/
def sampleEnv (now : String) (fetch : Option Int → Except String (List PlayItem)) :
    SyncEnv :=
  ⟨sampleConfig, now, sampleRefresh, .ok "u1", fetch, utcOnlyTzDb⟩

/-- Fixture: a populated state section for user `u1` in UTC; `"k:rt"`
is refresh token `rt` encrypted under key 1, `""` a missing token. -/
def sampleStateWs (cursor rtEnc lastErr : String) : Worksheet :=
  ⟨[["key", "value"], ["enabled", "true"], ["timezone", "UTC"],
    ["last_synced_after_ts", cursor], ["spotify_user_id", "u1"],
    ["refresh_token_enc", rtEnc], ["created_at", "c0"],
    ["updated_at", "u0"], ["last_error", lastErr]]⟩

/-- Fixture: a tenant store holding only the state section. -/
def sampleStore (cursor rtEnc lastErr : String) : Spreadsheet :=
  ⟨[(APP_STATE_TITLE, sampleStateWs cursor rtEnc lastErr)], []⟩

/-- Fixture: one parsed recently-played item. -/
def sampleItem (pa tid : String) : PlayItem :=
  ⟨some pa, some tid, "T" ++ tid, "A" ++ tid, "U" ++ tid⟩

/-- C5 fixture: items at 10:00, 11:00, 12:00, 13:00 UTC on 2024-01-01. -/
def c5Item1 : PlayItem := sampleItem "2024-01-01T10:00:00Z" "t1"

/-- C5 fixture: the 11:00 item. -/
def c5Item2 : PlayItem := sampleItem "2024-01-01T11:00:00Z" "t2"

/-- C5 fixture: the 12:00 item. -/
def c5Item3 : PlayItem := sampleItem "2024-01-01T12:00:00Z" "t3"

/-- C5 fixture: the 13:00 item. -/
def c5Item4 : PlayItem := sampleItem "2024-01-01T13:00:00Z" "t4"

/-- C5 fixture: first pass sees T1..T3 (provider order newest first). -/
def c5Env1 : SyncEnv := sampleEnv "N1" (fun _ => .ok [c5Item3, c5Item2, c5Item1])

/-- C5 fixture: second pass sees T2..T4 again due to lookback overlap. -/
def c5Env2 : SyncEnv := sampleEnv "N2" (fun _ => .ok [c5Item4, c5Item3, c5Item2])

/-- C5 fixture: store after the first pass. -/
def c5After1 : Spreadsheet :=
  passResult (sync_single_user c5Env1 (sampleStore "0" "k:rt" ""))

/-- C5 fixture: store after the second pass. -/
def c5After2 : Spreadsheet := passResult (sync_single_user c5Env2 c5After1)

/-- C1 fixture: the provider returns a late-delivered item at
2023-11-14T21:56:40Z (1699999000000 ms), inside the lookback window but
older than the persisted cursor 1700000000000. -/
def c1Env : SyncEnv :=
  sampleEnv "N1" (fun _ => .ok [sampleItem "2023-11-14T21:56:40Z" "tx"])

/-- C1 fixture: store whose cursor is 1700000000000. -/
def c1Before : Spreadsheet := sampleStore "1700000000000" "k:rt" ""

/-- C1 fixture: store after the regressing pass. -/
def c1After : Spreadsheet := passResult (sync_single_user c1Env c1Before)

/-- C1 witness fixture: a fresh store accepting one item. -/
def c1wEnv : SyncEnv :=
  sampleEnv "N3" (fun _ => .ok [sampleItem "2024-01-01T10:00:00Z" "t1"])

/-- C1 witness fixture: initial store with cursor 0. -/
def c1wBefore : Spreadsheet := sampleStore "0" "k:rt" ""

/-- C1 witness fixture: store after that pass. -/
def c1wAfter : Spreadsheet := passResult (sync_single_user c1wEnv c1wBefore)

/-- C4 fixture: a provider returning no items. -/
def c4Env : SyncEnv := sampleEnv "N9" (fun _ => .ok [])

/-- C4 fixture: store with a stale error string recorded. -/
def c4Before : Spreadsheet := sampleStore "1700000000000" "k:rt" "boom"

/-- C4 fixture: store after the empty pass. -/
def c4After : Spreadsheet := passResult (sync_single_user c4Env c4Before)

/-- C4 witness fixture: provider repeats an already-logged item. -/
def c4wEnv : SyncEnv :=
  sampleEnv "N8" (fun _ => .ok [sampleItem "2024-01-01T10:00:00Z" "t1"])

/-- C4 witness fixture: store whose dedupe window already holds that
item's key. -/
def c4wStore : Spreadsheet :=
  ⟨[(APP_STATE_TITLE, sampleStateWs "5" "k:rt" "e0"),
    (DEDUPE_TITLE, ⟨[["dedupe_key"], ["u1|2024-01-01T10:00:00Z|t1"]]⟩)], []⟩

/-- C4 witness fixture: store after the all-duplicates pass. -/
def c4wAfter : Spreadsheet := passResult (sync_single_user c4wEnv c4wStore)

/-- C6 fixture: dedupe section holding exactly one key. -/
def c6Store : Spreadsheet :=
  ⟨[(DEDUPE_TITLE, ⟨[["dedupe_key"], ["u1|p|t"]]⟩)], []⟩

/-- C9 fixture: log/state/dedupe sections with window contents `D`. -/
def c9Store (D : List String) : Spreadsheet :=
  ⟨[(APP_STATE_TITLE, sampleStateWs "0" "k:rt" ""),
    (LOG_SHEET_TITLE, ⟨[LOG_HEADERS]⟩),
    (DEDUPE_TITLE, ⟨["dedupe_key"] :: D.map (fun k => [k])⟩)], []⟩

/-- C9 fixture: pass environment returning the given page of items. -/
def c9Env (items : List PlayItem) : SyncEnv :=
  sampleEnv "N5" (fun _ => .ok items)

/-- C9 fixture: one page holding the same play twice. -/
def c9Items : List PlayItem :=
  [sampleItem "2024-01-01T10:00:00Z" "t1",
   sampleItem "2024-01-01T10:00:00Z" "t1"]

/-- C9 fixture: store after a pass over the duplicated page with an
empty stored dedupe window. -/
def c9DupAfter : Spreadsheet :=
  passResult (sync_single_user (c9Env c9Items) (c9Store []))

/-- C10 witness fixture: an established store. -/
def c10Store : Spreadsheet := sampleStore "7" "k:rt" "x"

/-- C10 witness fixture: empty provider, no rotation in the refresh. -/
def c10Env : SyncEnv := sampleEnv "N6" (fun _ => .ok [])

/-- C10 witness fixture: store after the pass. -/
def c10After : Spreadsheet := passResult (sync_single_user c10Env c10Store)

/-- C8 fixture: a registry spreadsheet with the given data rows. -/
def c8RegStore (rows : List (List String)) : Spreadsheet :=
  ⟨[(REGISTRY_TITLE, ⟨REGISTRY_HEADERS :: rows⟩)], []⟩

/-- C2 fixture: registry with enabled tenants A and B. -/
def c2RegistryWs : Worksheet :=
  ⟨[REGISTRY_HEADERS, ["A", "true", "ca", "la", "sa", "ea"],
    ["B", "true", "cb", "lb", "sb", "eb"]]⟩

/-- C2 fixture: tenant A's store has no refresh token stored, tenant B's
is healthy. -/
def c2World : SyncWorld :=
  ⟨⟨[(REGISTRY_TITLE, c2RegistryWs)], []⟩,
   [("A", sampleStore "0" "" ""), ("B", sampleStore "0" "k:rt" "")]⟩

/-- C2 fixture: every tenant gets the same healthy environment with an
empty provider page. -/
def c2EnvOf : String → SyncEnv := fun _ => sampleEnv "NW" (fun _ => .ok [])

/-- C2 fixture: tenant A's failing pass outcome. -/
def c2AFail : SyncError × Spreadsheet :=
  match sync_single_user (c2EnvOf "A") (sampleStore "0" "" "") with
  | .error p => p
  | .ok s => (.missingRefreshToken, s)

/-- C2 fixture: tenant B's successful pass outcome. -/
def c2BAfter : Spreadsheet :=
  passResult (sync_single_user (c2EnvOf "B") (sampleStore "0" "k:rt" ""))

/-- The state dict `prepare_user_sheet` writes into an empty state
section when called with no timezone argument, at time `now`. -/
def appStateInitDict (now : String) : PyDict :=
  [("enabled", "false"), ("timezone", "UTC"), ("last_synced_after_ts", "0"),
   ("spotify_user_id", ""), ("refresh_token_enc", ""), ("created_at", now),
   ("updated_at", now), ("last_error", "")]

/-- A tenant store on which `prepare_user_sheet` has nothing left to do:
all five sections exist, the three enforced header rows match, the state
section holds records, and the four service sections are hidden. -/
def Prepared (ss : Spreadsheet) : Prop :=
  (∃ w, findWs ss LOG_SHEET_TITLE = some w ∧
    row_values w 1 = LOG_HEADERS) ∧
  (∃ w, findWs ss APP_STATE_TITLE = some w ∧
    row_values w 1 = APP_STATE_HEADERS ∧ get_all_records w ≠ []) ∧
  (∃ w, findWs ss DEDUPE_TITLE = some w ∧
    row_values w 1 = DEDUPE_HEADERS) ∧
  (findWs ss TRACKS_TITLE).isSome = true ∧
  (findWs ss ARTISTS_TITLE).isSome = true ∧
  ss.hiddenTitles.contains APP_STATE_TITLE = true ∧
  ss.hiddenTitles.contains DEDUPE_TITLE = true ∧
  ss.hiddenTitles.contains TRACKS_TITLE = true ∧
  ss.hiddenTitles.contains ARTISTS_TITLE = true

/-!
Lemma library: list trimming, Python dicts, spreadsheet operations.
-/

theorem exists_trim_decomp (r : List String) :
    ∃ b, r = trimTrailingBlanks r ++ b ∧ ∀ x ∈ b, x = "" := by
  refine ⟨(r.reverse.takeWhile (fun c => c = "")).reverse, ?_, ?_⟩
  · unfold trimTrailingBlanks
    rw [← List.reverse_append, List.takeWhile_append_dropWhile, List.reverse_reverse]
  · intro x hx
    rw [List.mem_reverse] at hx
    have := List.mem_takeWhile_imp hx
    simpa using this

theorem getD_of_all_blank {b : List String} (hb : ∀ x ∈ b, x = "") (i : Nat) :
    b.getD i "" = "" := by
  rcases h : b[i]? with _ | x
  · simp [List.getD, h]
  · have hx : x ∈ b := List.getElem?_mem h
    simp [List.getD, h, hb x hx]

theorem trimTrailingBlanks_getD (r : List String) (i : Nat) :
    (trimTrailingBlanks r).getD i "" = r.getD i "" := by
  obtain ⟨b, hr, hb⟩ := exists_trim_decomp r
  conv_rhs => rw [hr]
  rcases lt_or_ge i (trimTrailingBlanks r).length with h | h
  · rw [List.getD_append _ _ _ _ h]
  · rw [List.getD_eq_default _ _ h]
    rw [List.getD_append_right _ _ _ _ h]
    exact (getD_of_all_blank hb _).symm

theorem padBlanksTo_getD (n : Nat) (r : List String) (i : Nat) :
    (padBlanksTo n r).getD i "" = r.getD i "" := by
  unfold padBlanksTo
  rcases lt_or_ge i r.length with h | h
  · rw [List.getD_append _ _ _ _ h]
  · rw [List.getD_eq_default _ _ h, List.getD_append_right _ _ _ _ h]
    exact getD_of_all_blank (by simp) _

theorem trimTrailingBlanks_cons_drop (a : String) (t : List String) :
    (trimTrailingBlanks (a :: t)).drop 1 = trimTrailingBlanks t := by
  unfold trimTrailingBlanks
  rcases h : t.reverse.dropWhile (fun c => c = "") with _ | ⟨x, xs⟩
  · simp only [List.reverse_cons, List.dropWhile_append, h]
    by_cases ha : a = "" <;> simp [List.dropWhile, ha, h]
  · simp only [List.reverse_cons, List.dropWhile_append, h]
    simp [h]

theorem trimTrailingBlanks_no_blank_end {r : List String}
    (h : r ≠ [] → r.getLast? ≠ some "") : trimTrailingBlanks r = r := by
  unfold trimTrailingBlanks
  rcases hr : r.reverse with _ | ⟨x, xs⟩
  · simp at hr; simp [hr]
  · have hx : r.getLast? = some x := by
      rw [← List.head?_reverse, hr]; rfl
    have hne : r ≠ [] := by
      intro h0; rw [h0] at hr; simp at hr
    have : ¬(x = "") := by
      intro hxe; exact h hne (by rw [hx, hxe])
    rw [List.dropWhile_cons_of_neg (by simpa using this)]
    rw [← hr, List.reverse_reverse]

theorem pyGet_cons (kv : String × String) (d : PyDict) (k dflt : String) :
    pyGet (kv :: d) k dflt = if kv.1 = k then kv.2 else pyGet d k dflt := by
  by_cases h : kv.1 = k <;>
    simp [pyGet, List.find?_cons_of_pos, List.find?_cons_of_neg, h]

theorem pyHasKey_cons (kv : String × String) (d : PyDict) (k : String) :
    pyHasKey (kv :: d) k = (decide (kv.1 = k) || pyHasKey d k) := by
  simp [pyHasKey]

theorem pyGet_absent {d : PyDict} {k : String} (h : pyHasKey d k = false)
    (dflt : String) : pyGet d k dflt = dflt := by
  induction d with
  | nil => rfl
  | cons kv rest ih =>
    rw [pyHasKey_cons] at h
    simp only [Bool.or_eq_false_iff, decide_eq_false_iff_not] at h
    rw [pyGet_cons, if_neg h.1]
    exact ih h.2

theorem pyGet_append_of_present {d : PyDict} {k : String}
    (h : pyHasKey d k = true) (l : PyDict) (dflt : String) :
    pyGet (d ++ l) k dflt = pyGet d k dflt := by
  induction d with
  | nil => simp [pyHasKey] at h
  | cons kv rest ih =>
    by_cases hk : kv.1 = k
    · simp [pyGet_cons, hk]
    · rw [pyHasKey_cons] at h
      simp only [decide_eq_false hk, Bool.false_or] at h
      simp [pyGet_cons, hk, ih h]

theorem pyGet_append_single_absent {d : PyDict} {k : String}
    (h : pyHasKey d k = false) (k0 v0 dflt : String) :
    pyGet (d ++ [(k0, v0)]) k dflt = if k0 = k then v0 else dflt := by
  induction d with
  | nil => by_cases h0 : k0 = k <;> simp [List.nil_append, pyGet_cons, pyGet, h0]
  | cons kv rest ih =>
    rw [pyHasKey_cons] at h
    simp only [Bool.or_eq_false_iff, decide_eq_false_iff_not] at h
    rw [List.cons_append, pyGet_cons, if_neg h.1]
    exact ih h.2

theorem pyHasKey_append (d l : PyDict) (k : String) :
    pyHasKey (d ++ l) k = (pyHasKey d k || pyHasKey l k) := by
  simp [pyHasKey]

theorem map_replace_absent {d : PyDict} {k' : String}
    (h : pyHasKey d k' = false) (v : String) :
    d.map (fun kv => if kv.1 = k' then (kv.1, v) else kv) = d := by
  induction d with
  | nil => rfl
  | cons kv rest ih =>
    rw [pyHasKey_cons] at h
    simp only [Bool.or_eq_false_iff, decide_eq_false_iff_not] at h
    simp [if_neg h.1, ih h.2]

theorem pyGet_map_replace {d : PyDict} {k' k : String} (hne : k' ≠ k)
    (v dflt : String) :
    pyGet (d.map (fun kv => if kv.1 = k' then (kv.1, v) else kv)) k dflt =
      pyGet d k dflt := by
  induction d with
  | nil => rfl
  | cons kv rest ih =>
    by_cases hk2 : kv.1 = k
    · have hk' : kv.1 ≠ k' := fun hh => hne (by rw [← hh, hk2])
      rw [List.map_cons, if_neg hk', pyGet_cons, if_pos hk2, pyGet_cons, if_pos hk2]
    · by_cases hk : kv.1 = k'
      · simp only [List.map_cons, if_pos hk, pyGet_cons]
        simpa [hk2] using ih
      · simp only [List.map_cons, if_neg hk, pyGet_cons]
        simpa [hk2] using ih

theorem pyGet_map_replace_same {d : PyDict} {k : String}
    (h : pyHasKey d k = true) (v dflt : String) :
    pyGet (d.map (fun kv => if kv.1 = k then (kv.1, v) else kv)) k dflt = v := by
  induction d with
  | nil => simp [pyHasKey] at h
  | cons kv rest ih =>
    by_cases hk : kv.1 = k
    · simp [List.map_cons, if_pos hk, pyGet_cons, hk]
    · rw [pyHasKey_cons] at h
      simp only [decide_eq_false hk, Bool.false_or] at h
      simp only [List.map_cons, if_neg hk, pyGet_cons, if_neg hk]
      exact ih h

theorem pyGet_pyInsert_same (d : PyDict) (k v dflt : String) :
    pyGet (pyInsert d k v) k dflt = v := by
  unfold pyInsert
  by_cases h : pyHasKey d k
  · rw [if_pos h]
    exact pyGet_map_replace_same h v dflt
  · rw [if_neg h]
    rw [pyGet_append_single_absent (by simpa using h)]
    simp

theorem pyGet_pyInsert_other {k' k : String} (hne : k' ≠ k) (d : PyDict)
    (v dflt : String) : pyGet (pyInsert d k' v) k dflt = pyGet d k dflt := by
  unfold pyInsert
  by_cases h : pyHasKey d k'
  · rw [if_pos h]
    exact pyGet_map_replace hne v dflt
  · rw [if_neg h]
    by_cases hk : pyHasKey d k
    · exact pyGet_append_of_present hk _ _
    · rw [pyGet_append_single_absent (by simpa using hk), if_neg hne,
        pyGet_absent (by simpa using hk)]

theorem pyHasKey_map_replace (d : PyDict) (k' k v : String) :
    pyHasKey (d.map (fun kv => if kv.1 = k' then (kv.1, v) else kv)) k =
      pyHasKey d k := by
  induction d with
  | nil => rfl
  | cons kv rest ih =>
    by_cases hk : kv.1 = k' <;>
      simp [List.map_cons, hk, pyHasKey_cons, ih]

theorem pyHasKey_pyInsert (d : PyDict) (k0 v k : String) :
    pyHasKey (pyInsert d k0 v) k = (pyHasKey d k || decide (k0 = k)) := by
  unfold pyInsert
  by_cases h : pyHasKey d k0
  · rw [if_pos h, pyHasKey_map_replace]
    by_cases hk : k0 = k
    · subst hk
      simp [h]
    · simp [hk]
  · rw [if_neg h, pyHasKey_append]
    simp [pyHasKey]

theorem pyHasKey_pySetdefault (d : PyDict) (k0 v k : String) :
    pyHasKey (pySetdefault d k0 v) k = (pyHasKey d k || decide (k0 = k)) := by
  unfold pySetdefault
  by_cases h : pyHasKey d k0
  · rw [if_pos h]
    by_cases hk : k0 = k
    · subst hk
      simp [h]
    · simp [hk]
  · rw [if_neg h, pyHasKey_append]
    simp [pyHasKey]

theorem pyGet_pySetdefault_other {k0 k : String} (hne : k0 ≠ k) (d : PyDict)
    (v dflt : String) : pyGet (pySetdefault d k0 v) k dflt = pyGet d k dflt := by
  unfold pySetdefault
  by_cases h : pyHasKey d k0
  · rw [if_pos h]
  · rw [if_neg h]
    by_cases hk : pyHasKey d k
    · exact pyGet_append_of_present hk _ _
    · rw [pyGet_append_single_absent (by simpa using hk), if_neg hne,
        pyGet_absent (by simpa using hk)]

theorem pyGet_pySetdefault_self (d : PyDict) (k v dflt : String) :
    pyGet (pySetdefault d k v) k dflt =
      if pyHasKey d k then pyGet d k dflt else v := by
  unfold pySetdefault
  by_cases h : pyHasKey d k
  · simp [h]
  · rw [if_neg h, if_neg h, pyGet_append_single_absent (by simpa using h)]
    simp

theorem pyHasKey_pySetdefault_of (d : PyDict) (k0 v : String) {k : String}
    (h : pyHasKey d k = true) : pyHasKey (pySetdefault d k0 v) k = true := by
  rw [pyHasKey_pySetdefault, h, Bool.true_or]

theorem pyGet_foldl_setdefault_present {d : PyDict} {k : String}
    (h : pyHasKey d k = true) (ds : PyDict) (dflt : String) :
    pyGet (ds.foldl (fun acc kv => pySetdefault acc kv.1 kv.2) d) k dflt =
      pyGet d k dflt := by
  induction ds generalizing d with
  | nil => rfl
  | cons kv rest ih =>
    rw [List.foldl_cons, ih (pyHasKey_pySetdefault_of d kv.1 kv.2 h)]
    by_cases hk : kv.1 = k
    · subst hk
      rw [pyGet_pySetdefault_self, if_pos h]
    · exact pyGet_pySetdefault_other hk d kv.2 dflt

theorem foldl_setdefault_congr_at {k : String} (ds : PyDict) :
    ∀ d1 d2 : PyDict, (∀ dflt, pyGet d1 k dflt = pyGet d2 k dflt) →
    pyHasKey d1 k = pyHasKey d2 k →
    (∀ dflt, pyGet (ds.foldl (fun acc kv => pySetdefault acc kv.1 kv.2) d1) k dflt =
      pyGet (ds.foldl (fun acc kv => pySetdefault acc kv.1 kv.2) d2) k dflt) ∧
    pyHasKey (ds.foldl (fun acc kv => pySetdefault acc kv.1 kv.2) d1) k =
      pyHasKey (ds.foldl (fun acc kv => pySetdefault acc kv.1 kv.2) d2) k := by
  induction ds with
  | nil => intro d1 d2 hg hh; exact ⟨hg, hh⟩
  | cons kv rest ih =>
    intro d1 d2 hg hh
    rw [List.foldl_cons, List.foldl_cons]
    refine ih (pySetdefault d1 kv.1 kv.2) (pySetdefault d2 kv.1 kv.2) ?_ ?_
    · intro dflt
      by_cases hk : kv.1 = k
      · subst hk
        rw [pyGet_pySetdefault_self, pyGet_pySetdefault_self, hh, hg]
      · rw [pyGet_pySetdefault_other hk, pyGet_pySetdefault_other hk, hg]
    · rw [pyHasKey_pySetdefault, pyHasKey_pySetdefault, hh]

theorem pyGet_pyMerge_notin {u : PyDict} {k : String}
    (h : ∀ kv ∈ u, kv.1 ≠ k) (d : PyDict) (dflt : String) :
    pyGet (pyMerge d u) k dflt = pyGet d k dflt := by
  induction u generalizing d with
  | nil => rfl
  | cons kv rest ih =>
    rw [pyMerge, List.foldl_cons]
    have h1 : kv.1 ≠ k := h kv (List.mem_cons_self kv rest)
    rw [show rest.foldl (fun acc kv => pyInsert acc kv.1 kv.2) (pyInsert d kv.1 kv.2) =
      pyMerge (pyInsert d kv.1 kv.2) rest from rfl]
    rw [ih (fun x hx => h x (List.mem_cons_of_mem kv hx))]
    exact pyGet_pyInsert_other h1 d kv.2 dflt

theorem pyHasKey_pyMerge (d u : PyDict) (k : String) :
    pyHasKey (pyMerge d u) k = (pyHasKey d k || pyHasKey u k) := by
  induction u generalizing d with
  | nil => simp [pyMerge, pyHasKey]
  | cons kv rest ih =>
    rw [pyMerge, List.foldl_cons]
    rw [show rest.foldl (fun acc kv => pyInsert acc kv.1 kv.2) (pyInsert d kv.1 kv.2) =
      pyMerge (pyInsert d kv.1 kv.2) rest from rfl]
    rw [ih, pyHasKey_pyInsert, pyHasKey_cons]
    rw [Bool.or_assoc]

theorem pyHasKey_eq_mem (d : PyDict) (k : String) :
    pyHasKey d k = true ↔ k ∈ d.map Prod.fst := by
  simp only [pyHasKey, List.any_eq_true, List.mem_map, decide_eq_true_eq]

theorem keys_map_replace (d : PyDict) (k v : String) :
    (d.map (fun kv => if kv.1 = k then (kv.1, v) else kv)).map Prod.fst =
      d.map Prod.fst := by
  induction d with
  | nil => rfl
  | cons kv rest ih =>
    by_cases hk : kv.1 = k <;> simp [hk, ih]

theorem nodup_keys_pyInsert {d : PyDict} (h : (d.map Prod.fst).Nodup)
    (k v : String) : ((pyInsert d k v).map Prod.fst).Nodup := by
  unfold pyInsert
  by_cases hk : pyHasKey d k
  · rw [if_pos hk, keys_map_replace]
    exact h
  · rw [if_neg hk]
    rw [List.map_append]
    simp only [List.map_cons, List.map_nil]
    rw [List.nodup_append]
    refine ⟨h, List.nodup_singleton k, ?_⟩
    intro a ha hb
    simp only [List.mem_singleton] at hb
    subst hb
    exact hk ((pyHasKey_eq_mem d a).mpr ha)

theorem nodup_keys_pySetdefault {d : PyDict} (h : (d.map Prod.fst).Nodup)
    (k v : String) : ((pySetdefault d k v).map Prod.fst).Nodup := by
  unfold pySetdefault
  by_cases hk : pyHasKey d k
  · rwa [if_pos hk]
  · rw [if_neg hk]
    rw [List.map_append]
    simp only [List.map_cons, List.map_nil]
    rw [List.nodup_append]
    refine ⟨h, List.nodup_singleton k, ?_⟩
    intro a ha hb
    simp only [List.mem_singleton] at hb
    subst hb
    exact hk ((pyHasKey_eq_mem d a).mpr ha)

theorem nodup_keys_foldl_insert (recs : List PyDict) :
    ∀ acc : PyDict, (acc.map Prod.fst).Nodup →
    ((recs.foldl (fun a r => pyInsert a (pyGet r "key" "") (pyGet r "value" "")) acc).map
      Prod.fst).Nodup := by
  induction recs with
  | nil => intro acc h; exact h
  | cons r rest ih =>
    intro acc h
    exact ih _ (nodup_keys_pyInsert h _ _)

theorem nodup_keys_stateDict (recs : List PyDict) :
    ((stateDictOfRecords recs).map Prod.fst).Nodup :=
  nodup_keys_foldl_insert recs [] List.nodup_nil

theorem nodup_keys_pyMerge {d : PyDict} (h : (d.map Prod.fst).Nodup)
    (u : PyDict) : ((pyMerge d u).map Prod.fst).Nodup := by
  induction u generalizing d with
  | nil => exact h
  | cons kv rest ih =>
    rw [pyMerge, List.foldl_cons]
    exact ih (nodup_keys_pyInsert h kv.1 kv.2)

theorem nodup_keys_withStateDefaults {d : PyDict} (h : (d.map Prod.fst).Nodup) :
    ((withStateDefaults d).map Prod.fst).Nodup := by
  unfold withStateDefaults
  generalize APP_STATE_DEFAULTS = ds
  induction ds generalizing d with
  | nil => exact h
  | cons kv rest ih =>
    rw [List.foldl_cons]
    exact ih (nodup_keys_pySetdefault h kv.1 kv.2)

theorem pyInsert_absent {d : PyDict} {k : String} (h : pyHasKey d k = false)
    (v : String) : pyInsert d k v = d ++ [(k, v)] := by
  unfold pyInsert
  rw [if_neg (by simp [h])]

theorem foldl_insert_pairs (d : PyDict) :
    ∀ acc : PyDict, ((acc ++ d).map Prod.fst).Nodup →
    d.foldl (fun a kv => pyInsert a kv.1 kv.2) acc = acc ++ d := by
  induction d with
  | nil => intro acc _; simp
  | cons kv rest ih =>
    intro acc h
    rw [List.foldl_cons]
    have habs : pyHasKey acc kv.1 = false := by
      by_contra hc
      have hmem : kv.1 ∈ acc.map Prod.fst :=
        (pyHasKey_eq_mem acc kv.1).mp (by simpa using hc)
      rw [List.map_append, List.nodup_append] at h
      exact h.2.2 hmem (by simp)
    rw [pyInsert_absent habs, show (kv.1, kv.2) = kv from rfl]
    rw [ih (acc ++ [kv]) (by rwa [List.append_assoc, List.singleton_append])]
    rw [List.append_assoc, List.singleton_append]

theorem find?_replace_other {t' t : String} (hne : t' ≠ t)
    (sheets : List (String × Worksheet)) (w : Worksheet) :
    (sheets.map (fun p => if p.1 = t' then (t', w) else p)).find?
      (fun p => p.1 = t) = sheets.find? (fun p => p.1 = t) := by
  induction sheets with
  | nil => rfl
  | cons p rest ih =>
    by_cases hp : p.1 = t'
    · simp only [List.map_cons, if_pos hp]
      rw [List.find?_cons_of_neg _ (by simpa using hne),
        List.find?_cons_of_neg _ (by simp [hp, hne]), ih]
    · simp only [List.map_cons, if_neg hp]
      by_cases hpt : p.1 = t
      · rw [List.find?_cons_of_pos _ (by simpa using hpt),
          List.find?_cons_of_pos _ (by simpa using hpt)]
      · rw [List.find?_cons_of_neg _ (by simpa using hpt),
          List.find?_cons_of_neg _ (by simpa using hpt), ih]

theorem find?_replace_self {t : String} (sheets : List (String × Worksheet))
    (w : Worksheet) {q : String × Worksheet}
    (h : sheets.find? (fun p => p.1 = t) = some q) :
    (sheets.map (fun p => if p.1 = t then (t, w) else p)).find?
      (fun p => p.1 = t) = some (t, w) := by
  induction sheets with
  | nil => simp at h
  | cons p rest ih =>
    by_cases hp : p.1 = t
    · simp only [List.map_cons, if_pos hp]
      rw [List.find?_cons_of_pos _ (by simp)]
    · simp only [List.map_cons, if_neg hp]
      rw [List.find?_cons_of_neg _ (by simpa using hp)] at h
      rw [List.find?_cons_of_neg _ (by simpa using hp)]
      exact ih h

theorem findWs_setWs_self (ss : Spreadsheet) (t : String) (w : Worksheet) :
    findWs (setWs ss t w) t = some w := by
  unfold setWs
  by_cases h : hasWsTitle ss t
  · rw [if_pos h]
    unfold hasWsTitle findWs at h
    rcases hf : ss.sheets.find? (fun p => p.1 = t) with _ | q
    · rw [hf] at h; simp at h
    · unfold findWs
      simp only
      rw [find?_replace_self ss.sheets w hf]
      rfl
  · rw [if_neg h]
    unfold hasWsTitle findWs at h
    rcases hf : ss.sheets.find? (fun p => p.1 = t) with _ | q
    · unfold findWs
      simp only
      rw [List.find?_append, hf]
      rw [List.find?_cons_of_pos _ (by simp)]
      rfl
    · rw [hf] at h; simp at h

theorem findWs_setWs_other {t' t : String} (hne : t' ≠ t) (ss : Spreadsheet)
    (w : Worksheet) : findWs (setWs ss t' w) t = findWs ss t := by
  unfold setWs
  by_cases h : hasWsTitle ss t'
  · rw [if_pos h]
    unfold findWs
    simp only
    rw [find?_replace_other hne]
  · rw [if_neg h]
    unfold findWs
    simp only
    rw [List.find?_append]
    rw [List.find?_cons_of_neg _ (by simpa using hne), List.find?_nil, Option.or_none]

theorem findWs_irrelevant_hidden (sheets : List (String × Worksheet))
    (h1 h2 : List String) (t : String) :
    findWs ⟨sheets, h1⟩ t = findWs ⟨sheets, h2⟩ t := rfl

theorem findWs_set_hidden (ss : Spreadsheet) (t' : String) (b : Bool)
    (t : String) : findWs (set_hidden ss t' b) t = findWs ss t := by
  unfold set_hidden
  split
  · rfl
  · split
    · split <;> rfl
    · rfl

theorem findWs_get_or_create_other {t' t : String} (hne : t' ≠ t)
    (ss : Spreadsheet) :
    findWs (get_or_create_worksheet ss t') t = findWs ss t := by
  unfold get_or_create_worksheet
  split
  · rfl
  · exact findWs_setWs_other hne ss _

theorem findWs_get_or_create_self (ss : Spreadsheet) (t : String) :
    findWs (get_or_create_worksheet ss t) t =
      some ((findWs ss t).getD ⟨[]⟩) := by
  unfold get_or_create_worksheet
  by_cases h : hasWsTitle ss t
  · rw [if_pos h]
    unfold hasWsTitle at h
    rcases hf : findWs ss t with _ | w
    · rw [hf] at h; simp at h
    · rfl
  · rw [if_neg h]
    unfold hasWsTitle at h
    rcases hf : findWs ss t with _ | w
    · rw [findWs_setWs_self]
      rfl
    · rw [hf] at h; simp at h

theorem findWs_ensure_headers_other {t' t : String} (hne : t' ≠ t)
    (ss : Spreadsheet) (hs : List String) :
    findWs (ensure_headers ss t' hs) t = findWs ss t := by
  simp only [ensure_headers]
  split
  · rfl
  · exact findWs_setWs_other hne ss _

theorem ensure_headers_of_match {ss : Spreadsheet} {t : String}
    {hs : List String} (h : row_values (getWs ss t) 1 = hs) :
    ensure_headers ss t hs = ss := by
  simp only [ensure_headers]
  rw [if_pos h]

theorem getWs_setWs_self (ss : Spreadsheet) (t : String) (w : Worksheet) :
    getWs (setWs ss t w) t = w := by
  unfold getWs
  rw [findWs_setWs_self]
  rfl

theorem getWs_modifyWs_self (ss : Spreadsheet) (t : String)
    (f : Worksheet → Worksheet) : getWs (modifyWs ss t f) t = f (getWs ss t) := by
  unfold modifyWs
  exact getWs_setWs_self ss t _

theorem findWs_modifyWs_other {t' t : String} (hne : t' ≠ t)
    (ss : Spreadsheet) (f : Worksheet → Worksheet) :
    findWs (modifyWs ss t' f) t = findWs ss t :=
  findWs_setWs_other hne ss _

theorem findWs_write_app_state_other {t : String} (hne : t ≠ APP_STATE_TITLE)
    (ss : Spreadsheet) (u : PyDict) :
    findWs (write_app_state ss u) t = findWs ss t := by
  simp only [write_app_state]
  split
  · rw [findWs_ensure_headers_other (fun hh => hne hh.symm),
      findWs_get_or_create_other (fun hh => hne hh.symm)]
  · rw [findWs_modifyWs_other (fun hh => hne hh.symm),
      findWs_ensure_headers_other (fun hh => hne hh.symm),
      findWs_get_or_create_other (fun hh => hne hh.symm)]

theorem findWs_append_log_rows_other {t : String} (hne : t ≠ LOG_SHEET_TITLE)
    (ss : Spreadsheet) (rows : List (List String)) :
    findWs (append_log_rows ss rows) t = findWs ss t := by
  simp only [append_log_rows]
  split
  · rfl
  · rw [findWs_modifyWs_other (fun hh => hne hh.symm),
      findWs_ensure_headers_other (fun hh => hne hh.symm),
      findWs_get_or_create_other (fun hh => hne hh.symm)]

theorem findWs_append_dedupe_keys_other {t : String} (hne : t ≠ DEDUPE_TITLE)
    (ss : Spreadsheet) (keys : List String) :
    findWs (append_dedupe_keys ss keys) t = findWs ss t := by
  simp only [append_dedupe_keys]
  split
  · rfl
  · rw [findWs_modifyWs_other (fun hh => hne hh.symm),
      findWs_ensure_headers_other (fun hh => hne hh.symm),
      findWs_get_or_create_other (fun hh => hne hh.symm)]

theorem getWs_eq_of_find {ss : Spreadsheet} {t : String} {w : Worksheet}
    (h : findWs ss t = some w) : getWs ss t = w := by
  unfold getWs
  rw [h]
  rfl

theorem get_or_create_of_present {ss : Spreadsheet} {t : String}
    (h : (findWs ss t).isSome) : get_or_create_worksheet ss t = ss := by
  unfold get_or_create_worksheet hasWsTitle
  rw [if_pos h]

theorem pyHasKey_iff_find (d : PyDict) (k : String) :
    pyHasKey d k = (d.find? (fun kv => kv.1 = k)).isSome := by
  induction d with
  | nil => rfl
  | cons kv rest ih =>
    by_cases hk : kv.1 = k
    · simp [pyHasKey_cons, hk, List.find?_cons_of_pos]
    · rw [pyHasKey_cons, List.find?_cons_of_neg _ (by simpa using hk)]
      simp [hk, ih]

theorem pyGet_present_dflt {d : PyDict} {k : String} (h : pyHasKey d k = true)
    (d1 d2 : String) : pyGet d k d1 = pyGet d k d2 := by
  rw [pyHasKey_iff_find] at h
  unfold pyGet
  rcases hf : d.find? (fun kv => kv.1 = k) with _ | kv
  · rw [hf] at h; simp at h
  · rw [hf]

theorem pyHasKey_foldl_setdefault (ds : PyDict) :
    ∀ (d : PyDict) (k : String),
    pyHasKey (ds.foldl (fun acc kv => pySetdefault acc kv.1 kv.2) d) k =
      (pyHasKey d k || pyHasKey ds k) := by
  induction ds with
  | nil => intro d k; simp [pyHasKey]
  | cons kv rest ih =>
    intro d k
    rw [List.foldl_cons, ih, pyHasKey_pySetdefault, pyHasKey_cons]
    by_cases h1 : kv.1 = k <;> simp [h1, Bool.or_assoc]

theorem pyHasKey_withStateDefaults (d : PyDict) (k : String) :
    pyHasKey (withStateDefaults d) k =
      (pyHasKey d k || pyHasKey APP_STATE_DEFAULTS k) :=
  pyHasKey_foldl_setdefault APP_STATE_DEFAULTS d k

theorem cells_ne_nil_of_row1 {w : Worksheet} {hs : List String}
    (hne : hs ≠ []) (h : row_values w 1 = hs) : w.cells ≠ [] := by
  intro h0
  rw [row_values] at h
  unfold Worksheet.rowAt at h
  rw [h0] at h
  simp [trimTrailingBlanks] at h
  exact hne h

theorem padRowsTo_cons (n : Nat) (p : List String) (l : List (List String)) :
    padRowsTo (n + 1) (p :: l) = p :: padRowsTo n l := by
  unfold padRowsTo
  simp only [List.length_cons, List.cons_append]
  rw [show n + 1 - (l.length + 1) = n - l.length from by omega]

theorem setRow_append (P X : List (List String)) (r : List String) :
    (Worksheet.mk (P ++ X)).setRow (P.length + 1) r = ⟨P ++ r :: X.drop 1⟩ := by
  induction P with
  | nil =>
    rcases X with _ | ⟨x, xs⟩
    · simp [Worksheet.setRow, padRowsTo]
    · simp [Worksheet.setRow, padRowsTo]
  | cons p ps ih =>
    unfold Worksheet.setRow at ih ⊢
    simp only [List.cons_append, List.length_cons]
    rw [padRowsTo_cons]
    rw [show ps.length + 1 + 1 - 1 = (ps.length + 1 - 1) + 1 from by omega]
    rw [List.set_cons_succ]
    have := ih
    rw [Worksheet.mk.injEq] at this
    rw [this]

theorem setRowsFrom_append (data : List (List String)) :
    ∀ (P X : List (List String)), X.length ≤ data.length →
    (Worksheet.mk (P ++ X)).setRowsFrom (P.length + 1) data = ⟨P ++ data⟩ := by
  induction data with
  | nil =>
    intro P X h
    simp only [List.length_nil, Nat.le_zero, List.length_eq_zero] at h
    subst h
    rfl
  | cons r rs ih =>
    intro P X h
    rw [Worksheet.setRowsFrom, setRow_append]
    rw [show P ++ r :: X.drop 1 = (P ++ [r]) ++ X.drop 1 from by simp]
    rw [show P.length + 1 + 1 = (P ++ [r]).length + 1 from by simp]
    have hd : (X.drop 1).length ≤ rs.length := by
      rw [List.length_drop]
      simp only [List.length_cons] at h
      omega
    have h2 := ih (P ++ [r]) (X.drop 1) hd
    simpa using h2

theorem pyHasKey_eq_false_of {u : PyDict} {k : String}
    (h : ∀ kv ∈ u, kv.1 ≠ k) : pyHasKey u k = false := by
  simp only [pyHasKey, List.any_eq_false, decide_eq_true_eq]
  exact h

theorem recordOfRow_kv (a b : String) :
    recordOfRow APP_STATE_HEADERS [a, b] = [("key", a), ("value", b)] := rfl

theorem withStateDefaults_has_enabled (d : PyDict) :
    pyHasKey (withStateDefaults d) "enabled" = true := by
  rw [pyHasKey_withStateDefaults]
  have : pyHasKey APP_STATE_DEFAULTS "enabled" = true := by decide
  rw [this, Bool.or_true]

theorem withStateDefaults_ne_nil (d : PyDict) : withStateDefaults d ≠ [] := by
  intro h0
  have := withStateDefaults_has_enabled d
  rw [h0] at this
  simp [pyHasKey] at this

theorem resize_setRows_of_cons {w : Worksheet} {r1 : List String}
    {rest data : List (List String)} (hc : w.cells = r1 :: rest) :
    (w.resizeRows (data.length + 1)).setRowsFrom 2 data = ⟨r1 :: data⟩ := by
  unfold Worksheet.resizeRows
  rw [hc, List.take_succ_cons]
  have := setRowsFrom_append data [r1] (rest.take data.length)
    (by simp)
  simpa using this

set_option maxHeartbeats 1000000 in
theorem write_app_state_cells {ss : Spreadsheet} (hwf : AppStateWF ss)
    (u : PyDict) :
    findWs (write_app_state ss u) APP_STATE_TITLE =
      some ⟨(getWs ss APP_STATE_TITLE).rowAt 1 ::
        (withStateDefaults (pyMerge (rawStateDict ss) u)).map
          (fun kv => [kv.1, kv.2])⟩ := by
  obtain ⟨w, hfind, hrow⟩ := hwf
  have hw : getWs ss APP_STATE_TITLE = w := getWs_eq_of_find hfind
  have hcne : w.cells ≠ [] := cells_ne_nil_of_row1 (by decide) hrow
  rcases hc : w.cells with _ | ⟨r1, rest⟩
  · exact absurd hc hcne
  unfold rawStateDict
  simp only [write_app_state]
  rw [get_or_create_of_present (by rw [hfind]; rfl)]
  rw [ensure_headers_of_match (by rw [hw]; exact hrow)]
  rw [if_neg (by
    intro h0
    rw [List.map_eq_nil_iff] at h0
    exact withStateDefaults_ne_nil _ h0)]
  unfold modifyWs
  rw [findWs_setWs_self, hw]
  congr 1
  beta_reduce
  rw [resize_setRows_of_cons hc]
  rw [show w.rowAt 1 = r1 from by unfold Worksheet.rowAt; rw [hc]; rfl]

theorem row_values_eq_of_rowAt {w w' : Worksheet}
    (h : w'.rowAt 1 = w.rowAt 1) : row_values w' 1 = row_values w 1 := by
  unfold row_values
  rw [h]

theorem stateDict_of_mapped_rows (current : PyDict)
    (hnd : (current.map Prod.fst).Nodup) :
    stateDictOfRecords (current.map (fun kv =>
      recordOfRow APP_STATE_HEADERS [kv.1, kv.2])) = current := by
  unfold stateDictOfRecords
  rw [List.foldl_map]
  have : current.foldl (fun a kv => pyInsert a
      (pyGet (recordOfRow APP_STATE_HEADERS [kv.1, kv.2]) "key" "")
      (pyGet (recordOfRow APP_STATE_HEADERS [kv.1, kv.2]) "value" "")) [] =
      current.foldl (fun a kv => pyInsert a kv.1 kv.2) [] := rfl
  rw [this]
  have h2 := foldl_insert_pairs current [] (by simpa using hnd)
  simpa using h2

theorem AppStateWF_write {ss : Spreadsheet} (hwf : AppStateWF ss)
    (u : PyDict) : AppStateWF (write_app_state ss u) := by
  obtain ⟨w, hfind, hrow⟩ := hwf
  have hw : getWs ss APP_STATE_TITLE = w := getWs_eq_of_find hfind
  refine ⟨_, write_app_state_cells ⟨w, hfind, hrow⟩ u, ?_⟩
  have hr1 : (Worksheet.mk ((getWs ss APP_STATE_TITLE).rowAt 1 ::
      (withStateDefaults (pyMerge (rawStateDict ss) u)).map
        (fun kv => [kv.1, kv.2]))).rowAt 1 = w.rowAt 1 := by
    simp [Worksheet.rowAt, hw]
  rw [row_values_eq_of_rowAt hr1]
  exact hrow

set_option maxHeartbeats 1000000 in
theorem rawStateDict_write {ss : Spreadsheet} (hwf : AppStateWF ss)
    (u : PyDict) :
    rawStateDict (write_app_state ss u) =
      withStateDefaults (pyMerge (rawStateDict ss) u) := by
  obtain ⟨w, hfind, hrow⟩ := hwf
  have hw : getWs ss APP_STATE_TITLE = w := getWs_eq_of_find hfind
  have hcells := write_app_state_cells ⟨w, hfind, hrow⟩ u
  set M := withStateDefaults (pyMerge (rawStateDict ss) u) with hM
  set W : Worksheet :=
    ⟨(getWs ss APP_STATE_TITLE).rowAt 1 :: M.map (fun kv => [kv.1, kv.2])⟩ with hW
  unfold rawStateDict
  rw [getWs_eq_of_find hcells]
  have hr1 : W.rowAt 1 = w.rowAt 1 := by
    rw [hW]
    simp [Worksheet.rowAt, hw]
  have hdrop : W.cells.drop 1 = M.map (fun kv => [kv.1, kv.2]) := by
    rw [hW]
    rfl
  have hrv : row_values W 1 = APP_STATE_HEADERS := by
    rw [row_values_eq_of_rowAt hr1]
    exact hrow
  simp only [get_all_records]
  rw [hrv, hdrop, List.map_map]
  have hnd : (M.map Prod.fst).Nodup := by
    rw [hM]
    exact nodup_keys_withStateDefaults (nodup_keys_pyMerge (nodup_keys_stateDict _) u)
  have h2 := stateDict_of_mapped_rows M hnd
  exact h2

theorem appStateValue_write {ss : Spreadsheet} (hwf : AppStateWF ss)
    (u : PyDict) (k : String) :
    appStateValue (write_app_state ss u) k =
      pyGet (withStateDefaults (pyMerge (rawStateDict ss) u)) k "" := by
  unfold appStateValue
  rw [rawStateDict_write hwf u]
  by_cases hk : pyHasKey (withStateDefaults (pyMerge (rawStateDict ss) u)) k = true
  · unfold withStateDefaults
    exact pyGet_foldl_setdefault_present hk APP_STATE_DEFAULTS ""
  · have hk2 : pyHasKey (withStateDefaults (pyMerge (rawStateDict ss) u)) k = false := by
      simpa using hk
    have hk3 : pyHasKey APP_STATE_DEFAULTS k = false := by
      rw [pyHasKey_withStateDefaults] at hk2
      exact (Bool.or_eq_false_iff.mp hk2).2
    rw [pyGet_absent hk2 ""]
    rw [pyGet_absent (by
      rw [pyHasKey_withStateDefaults, hk2, Bool.false_or]
      exact hk3) ""]

theorem appStateValue_write_notin {ss : Spreadsheet} (hwf : AppStateWF ss)
    {u : PyDict} {k : String} (hnk : ∀ kv ∈ u, kv.1 ≠ k) :
    appStateValue (write_app_state ss u) k = appStateValue ss k := by
  rw [appStateValue_write hwf u k]
  unfold appStateValue
  have hcong := foldl_setdefault_congr_at (k := k) APP_STATE_DEFAULTS
    (pyMerge (rawStateDict ss) u) (rawStateDict ss)
    (fun dflt => pyGet_pyMerge_notin hnk _ dflt)
    (by rw [pyHasKey_pyMerge, pyHasKey_eq_false_of hnk, Bool.or_false])
  exact hcong.1 ""

theorem appStateValue_write_present {ss : Spreadsheet} (hwf : AppStateWF ss)
    (u : PyDict) (k : String)
    (hp : pyHasKey (pyMerge (rawStateDict ss) u) k = true) :
    appStateValue (write_app_state ss u) k =
      pyGet (pyMerge (rawStateDict ss) u) k "" := by
  rw [appStateValue_write hwf u k]
  unfold withStateDefaults
  exact pyGet_foldl_setdefault_present hp APP_STATE_DEFAULTS ""

set_option maxHeartbeats 1000000 in
theorem read_app_state_wf {ss : Spreadsheet} (hwf : AppStateWF ss) :
    read_app_state ss =
      (⟨asciiLower (appStateValue ss "enabled") = "true",
        appStateValue ss "timezone",
        appStateValue ss "last_synced_after_ts",
        appStateValue ss "spotify_user_id",
        appStateValue ss "refresh_token_enc",
        appStateValue ss "created_at",
        appStateValue ss "updated_at",
        appStateValue ss "last_error"⟩, ss) := by
  obtain ⟨w, hfind, hrow⟩ := hwf
  have hw : getWs ss APP_STATE_TITLE = w := getWs_eq_of_find hfind
  have hkey : ∀ k dflt : String, pyHasKey APP_STATE_DEFAULTS k = true →
      pyGet (withStateDefaults (stateDictOfRecords
        (get_all_records (getWs ss APP_STATE_TITLE)))) k dflt =
      appStateValue ss k := by
    intro k dflt hk
    unfold appStateValue rawStateDict
    refine pyGet_present_dflt ?_ dflt ""
    rw [pyHasKey_withStateDefaults, hk, Bool.or_true]
  simp only [read_app_state]
  rw [get_or_create_of_present (by rw [hfind]; rfl)]
  rw [ensure_headers_of_match (by rw [hw]; exact hrow)]
  rw [hkey "enabled" "false" (by decide), hkey "timezone" "UTC" (by decide),
    hkey "last_synced_after_ts" "0" (by decide),
    hkey "spotify_user_id" "" (by decide),
    hkey "refresh_token_enc" "" (by decide),
    hkey "created_at" "" (by decide), hkey "updated_at" "" (by decide),
    hkey "last_error" "" (by decide)]

theorem appStateValue_congr {ss' ss : Spreadsheet}
    (h : findWs ss' APP_STATE_TITLE = findWs ss APP_STATE_TITLE)
    (k : String) : appStateValue ss' k = appStateValue ss k := by
  unfold appStateValue rawStateDict getWs
  rw [h]

theorem AppStateWF_congr {ss' ss : Spreadsheet}
    (h : findWs ss' APP_STATE_TITLE = findWs ss APP_STATE_TITLE)
    (hwf : AppStateWF ss) : AppStateWF ss' := by
  obtain ⟨w, hfind, hrow⟩ := hwf
  exact ⟨w, by rw [h]; exact hfind, hrow⟩

theorem dedupeColKeys_congr {ss' ss : Spreadsheet}
    (h : findWs ss' DEDUPE_TITLE = findWs ss DEDUPE_TITLE) :
    dedupeColKeys ss' = dedupeColKeys ss := by
  unfold dedupeColKeys getWs
  rw [h]

theorem col_values_setRow1 (w : Worksheet) (r : List String) :
    (col_values (w.setRow 1 r) 1).drop 1 = (col_values w 1).drop 1 := by
  unfold col_values Worksheet.setRow
  rcases hc : w.cells with _ | ⟨c, rest⟩
  · have hx : List.map (fun row => row.getD (1 - 1) "")
        (Worksheet.mk ((padRowsTo 1 ([] : List (List String))).set (1 - 1) r)).cells =
        [r.getD 0 ""] := rfl
    rw [hx, trimTrailingBlanks_cons_drop]
    rfl
  · simp only [padRowsTo, List.length_cons]
    rw [show (c :: rest) ++ List.replicate (1 - (rest.length + 1)) [] = c :: rest from by
      simp]
    rw [show (c :: rest).set 0 r = r :: rest from rfl]
    simp only [List.map_cons]
    rw [trimTrailingBlanks_cons_drop, trimTrailingBlanks_cons_drop]

theorem dedupeColKeys_repair (ss : Spreadsheet) :
    dedupeColKeys (ensure_headers (get_or_create_worksheet ss DEDUPE_TITLE)
      DEDUPE_TITLE DEDUPE_HEADERS) = dedupeColKeys ss := by
  by_cases h : hasWsTitle ss DEDUPE_TITLE
  · rw [show get_or_create_worksheet ss DEDUPE_TITLE = ss from by
      unfold get_or_create_worksheet; rw [if_pos h]]
    simp only [ensure_headers]
    split
    · rfl
    · unfold dedupeColKeys
      rw [getWs_setWs_self]
      exact col_values_setRow1 _ _
  · have hfind : findWs ss DEDUPE_TITLE = none := by
      unfold hasWsTitle at h
      rcases hf : findWs ss DEDUPE_TITLE with _ | w
      · rfl
      · rw [hf] at h; simp at h
    rw [show get_or_create_worksheet ss DEDUPE_TITLE =
        setWs ss DEDUPE_TITLE ⟨[]⟩ from by
      unfold get_or_create_worksheet; rw [if_neg h]]
    have hget : getWs (setWs ss DEDUPE_TITLE ⟨[]⟩) DEDUPE_TITLE = ⟨[]⟩ :=
      getWs_setWs_self ss DEDUPE_TITLE ⟨[]⟩
    simp only [ensure_headers]
    rw [hget]
    rw [if_neg (by decide)]
    unfold dedupeColKeys
    rw [getWs_setWs_self]
    rw [show (Worksheet.mk []).setRow 1 DEDUPE_HEADERS =
      ⟨[DEDUPE_HEADERS]⟩ from rfl]
    have hg2 : getWs ss DEDUPE_TITLE = ⟨[]⟩ := by
      unfold getWs
      rw [hfind]
      rfl
    rw [hg2]
    rfl

theorem read_recent_fst (ss : Spreadsheet) (lim : Int) :
    (read_recent_dedupe_keys ss lim).1 =
      (if lim ≤ 0 ∨ ((dedupeColKeys ss).length : Int) ≤ lim
       then dedupeColKeys ss
       else takeLastN lim.toNat (dedupeColKeys ss)) := by
  simp only [read_recent_dedupe_keys]
  rw [show (col_values (getWs (ensure_headers
      (get_or_create_worksheet ss DEDUPE_TITLE) DEDUPE_TITLE DEDUPE_HEADERS)
      DEDUPE_TITLE) 1).drop 1 = dedupeColKeys ss from dedupeColKeys_repair ss]

theorem read_recent_snd (ss : Spreadsheet) (lim : Int) :
    (read_recent_dedupe_keys ss lim).2 =
      ensure_headers (get_or_create_worksheet ss DEDUPE_TITLE) DEDUPE_TITLE
        DEDUPE_HEADERS := rfl

set_option maxHeartbeats 1000000 in
theorem prepare_preserves_app_state {ss : Spreadsheet} (hwf : AppStateReadyWF ss)
    (now : String) (tzOpt : Option String) :
    findWs (prepare_user_sheet ss now tzOpt) APP_STATE_TITLE =
      findWs ss APP_STATE_TITLE := by
  obtain ⟨⟨w, hfind, hrow⟩, hne⟩ := hwf
  have hw : getWs ss APP_STATE_TITLE = w := getWs_eq_of_find hfind
  have hLOG : LOG_SHEET_TITLE ≠ APP_STATE_TITLE := by decide
  have hDED : DEDUPE_TITLE ≠ APP_STATE_TITLE := by decide
  have hTRK : TRACKS_TITLE ≠ APP_STATE_TITLE := by decide
  have hART : ARTISTS_TITLE ≠ APP_STATE_TITLE := by decide
  set A2 := ensure_headers (get_or_create_worksheet ss LOG_SHEET_TITLE)
    LOG_SHEET_TITLE LOG_HEADERS with hA2
  have h2 : findWs A2 APP_STATE_TITLE = some w := by
    rw [hA2, findWs_ensure_headers_other hLOG, findWs_get_or_create_other hLOG]
    exact hfind
  have h3 : get_or_create_worksheet A2 APP_STATE_TITLE = A2 :=
    get_or_create_of_present (by rw [h2]; rfl)
  have h4 : ensure_headers A2 APP_STATE_TITLE APP_STATE_HEADERS = A2 :=
    ensure_headers_of_match (by rw [getWs_eq_of_find h2]; exact hrow)
  have hne2 : get_all_records w ≠ [] := by
    rw [hw] at hne
    exact hne
  have h5 : findWs (set_hidden A2 APP_STATE_TITLE true) APP_STATE_TITLE =
      some w := by
    rw [findWs_set_hidden]
    exact h2
  have h7 : ¬ (get_all_records (getWs (set_hidden A2 APP_STATE_TITLE true)
      APP_STATE_TITLE) = []) := by
    rw [getWs_eq_of_find h5]
    exact hne2
  simp only [prepare_user_sheet]
  rw [← hA2, h3, h4, if_neg h7]
  rw [findWs_set_hidden, findWs_get_or_create_other hART, findWs_set_hidden,
    findWs_get_or_create_other hTRK, findWs_set_hidden,
    findWs_ensure_headers_other hDED, findWs_get_or_create_other hDED,
    findWs_set_hidden, h2, hfind]

set_option maxHeartbeats 1000000 in
theorem dedupeColKeys_prepare (ss : Spreadsheet) (now : String)
    (tzOpt : Option String) :
    dedupeColKeys (prepare_user_sheet ss now tzOpt) = dedupeColKeys ss := by
  have hLOG : LOG_SHEET_TITLE ≠ DEDUPE_TITLE := by decide
  have hAPP : APP_STATE_TITLE ≠ DEDUPE_TITLE := by decide
  have hTRK : TRACKS_TITLE ≠ DEDUPE_TITLE := by decide
  have hART : ARTISTS_TITLE ≠ DEDUPE_TITLE := by decide
  simp only [prepare_user_sheet]
  rw [dedupeColKeys_congr (findWs_set_hidden _ _ _ _),
    dedupeColKeys_congr (findWs_get_or_create_other hART _),
    dedupeColKeys_congr (findWs_set_hidden _ _ _ _),
    dedupeColKeys_congr (findWs_get_or_create_other hTRK _),
    dedupeColKeys_congr (findWs_set_hidden _ _ _ _)]
  rw [dedupeColKeys_repair]
  split
  · split
    · rw [dedupeColKeys_congr (findWs_set_hidden _ _ _ _),
        dedupeColKeys_congr (findWs_ensure_headers_other hAPP _ _),
        dedupeColKeys_congr (findWs_get_or_create_other hAPP _),
        dedupeColKeys_congr (findWs_ensure_headers_other hLOG _ _),
        dedupeColKeys_congr (findWs_get_or_create_other hLOG _)]
    · rw [dedupeColKeys_congr (findWs_modifyWs_other hAPP _ _),
        dedupeColKeys_congr (findWs_set_hidden _ _ _ _),
        dedupeColKeys_congr (findWs_ensure_headers_other hAPP _ _),
        dedupeColKeys_congr (findWs_get_or_create_other hAPP _),
        dedupeColKeys_congr (findWs_ensure_headers_other hLOG _ _),
        dedupeColKeys_congr (findWs_get_or_create_other hLOG _)]
  · rw [dedupeColKeys_congr (findWs_set_hidden _ _ _ _),
      dedupeColKeys_congr (findWs_ensure_headers_other hAPP _ _),
      dedupeColKeys_congr (findWs_get_or_create_other hAPP _),
      dedupeColKeys_congr (findWs_ensure_headers_other hLOG _ _),
      dedupeColKeys_congr (findWs_get_or_create_other hLOG _)]

theorem AppStateReadyWF_prepare {ss : Spreadsheet} (hwf : AppStateReadyWF ss)
    (now : String) (tzOpt : Option String) :
    AppStateReadyWF (prepare_user_sheet ss now tzOpt) := by
  have hp := prepare_preserves_app_state hwf now tzOpt
  refine ⟨AppStateWF_congr hp hwf.1, ?_⟩
  rw [show getWs (prepare_user_sheet ss now tzOpt) APP_STATE_TITLE =
    getWs ss APP_STATE_TITLE from by unfold getWs; rw [hp]]
  exact hwf.2

theorem appStateValue_prepare {ss : Spreadsheet} (hwf : AppStateReadyWF ss)
    (now : String) (tzOpt : Option String) (k : String) :
    appStateValue (prepare_user_sheet ss now tzOpt) k = appStateValue ss k :=
  appStateValue_congr (prepare_preserves_app_state hwf now tzOpt) k

theorem fernetDecodeAux_encode (key : Nat) (l : List Char) :
    fernetDecodeAux key (List.replicate key 'k' ++ ':' :: l) = some l := by
  induction key with
  | zero => rfl
  | succ k ih =>
    rw [List.replicate_succ, List.cons_append, fernetDecodeAux, if_pos rfl]
    exact ih

theorem fernetDecodeAux_wrong_key :
    ∀ (k1 k2 : Nat), k1 ≠ k2 → ∀ l : List Char,
    fernetDecodeAux k2 (List.replicate k1 'k' ++ ':' :: l) = none := by
  intro k1 k2
  induction k2 generalizing k1 with
  | zero =>
    intro hne l
    rcases k1 with _ | m
    · exact absurd rfl hne
    · rw [List.replicate_succ, List.cons_append, fernetDecodeAux,
        if_neg (by decide)]
  | succ k2 ih =>
    intro hne l
    rcases k1 with _ | m
    · rw [List.replicate_zero, List.nil_append, fernetDecodeAux,
        if_neg (by decide)]
    · rw [List.replicate_succ, List.cons_append, fernetDecodeAux, if_pos rfl]
      exact ih m (fun hh => hne (by rw [hh])) l

theorem fernetDecodeAux_shape :
    ∀ (key : Nat) (cs l : List Char), fernetDecodeAux key cs = some l →
    cs = List.replicate key 'k' ++ ':' :: l := by
  intro key
  induction key with
  | zero =>
    intro cs l h
    rcases cs with _ | ⟨c, rest⟩
    · rw [fernetDecodeAux] at h
      exact absurd h (by simp)
    · rw [fernetDecodeAux] at h
      by_cases hc : c = ':'
      · rw [if_pos hc] at h
        rw [Option.some.injEq] at h
        rw [hc, h]
        rfl
      · rw [if_neg hc] at h
        exact absurd h (by simp)
  | succ k ih =>
    intro cs l h
    rcases cs with _ | ⟨c, rest⟩
    · rw [fernetDecodeAux] at h
      exact absurd h (by simp)
    · rw [fernetDecodeAux] at h
      by_cases hc : c = 'k'
      · rw [if_pos hc] at h
        rw [List.replicate_succ, List.cons_append, hc, ih rest l h]
      · rw [if_neg hc] at h
        exact absurd h (by simp)

theorem fernetEncode_ne_empty (key : Nat) (pt : String) :
    fernetEncode key pt ≠ "" := by
  intro h
  have := congrArg String.data h
  simp only [fernetEncode] at this
  rcases key with _ | k
  · simp at this
  · rw [List.replicate_succ] at this
    simp at this

/-- C3: for every key and plaintext, decrypting an encryption under the
same key returns the plaintext; decryption of the empty ciphertext, of a
ciphertext produced under a different key, or of any string that is not
a ciphertext at all, fails (ValueError for the empty string, InvalidToken
otherwise — the failures the spec groups as DecryptionError). -/
theorem c3_crypto_roundtrip :
    (∀ (key : Nat) (x : String),
      decrypt_refresh_token key (encrypt_refresh_token key x) = .ok x) ∧
    (∀ key : Nat,
      decrypt_refresh_token key "" = .error CryptoError.emptyToken) ∧
    (∀ (key key2 : Nat) (x : String), key ≠ key2 →
      decrypt_refresh_token key2 (encrypt_refresh_token key x) =
        .error CryptoError.invalidToken) ∧
    (∀ (key : Nat) (ct : String), ct ≠ "" →
      (∀ (k0 : Nat) (pt : String), ct ≠ encrypt_refresh_token k0 pt) →
      decrypt_refresh_token key ct = .error CryptoError.invalidToken) := by
  refine ⟨?_, ?_, ?_, ?_⟩
  · intro key x
    unfold decrypt_refresh_token encrypt_refresh_token
    rw [if_neg (fernetEncode_ne_empty key x)]
    rw [show fernetDecode key (fernetEncode key x) = some x from by
      unfold fernetDecode fernetEncode
      rw [show (String.mk (List.replicate key 'k' ++ ':' :: x.data)).data =
        List.replicate key 'k' ++ ':' :: x.data from rfl]
      rw [fernetDecodeAux_encode]
      rfl]
  · intro key
    rfl
  · intro key key2 x hne
    unfold decrypt_refresh_token encrypt_refresh_token
    rw [if_neg (fernetEncode_ne_empty key x)]
    rw [show fernetDecode key2 (fernetEncode key x) = none from by
      unfold fernetDecode fernetEncode
      rw [show (String.mk (List.replicate key 'k' ++ ':' :: x.data)).data =
        List.replicate key 'k' ++ ':' :: x.data from rfl]
      rw [fernetDecodeAux_wrong_key key key2 hne]
      rfl]
  · intro key ct hne henc
    unfold decrypt_refresh_token
    rw [if_neg hne]
    rcases hdec : fernetDecode key ct with _ | pt
    · rfl
    · exfalso
      unfold fernetDecode at hdec
      rcases haux : fernetDecodeAux key ct.data with _ | l
      · rw [haux] at hdec
        simp at hdec
      · have hshape := fernetDecodeAux_shape key ct.data l haux
        refine henc key ⟨l⟩ ?_
        unfold encrypt_refresh_token fernetEncode
        have : ct.data = (String.mk (List.replicate key 'k' ++ ':' ::
            (String.mk l).data)).data := hshape
        calc ct = ⟨ct.data⟩ := rfl
        _ = _ := congrArg String.mk this

theorem qq_not_token (k0 : Nat) (pt : String) :
    ("??" : String) ≠ encrypt_refresh_token k0 pt := by
  intro h
  have hd := congrArg String.data h
  unfold encrypt_refresh_token fernetEncode at hd
  rw [show ("??" : String).data = ['?', '?'] from rfl] at hd
  rcases k0 with _ | k
  · rw [List.replicate_zero, List.nil_append] at hd
    have := (List.cons.inj hd).1
    exact absurd this (by decide)
  · rw [List.replicate_succ, List.cons_append] at hd
    have := (List.cons.inj hd).1
    exact absurd this (by decide)

/-- C3 witness: the round trip and each failure mode at concrete inputs. -/
theorem c3_crypto_roundtrip_witness :
    decrypt_refresh_token 2 (encrypt_refresh_token 2 "tok") = .ok "tok" ∧
    decrypt_refresh_token 2 "" = .error CryptoError.emptyToken ∧
    decrypt_refresh_token 3 (encrypt_refresh_token 2 "tok") =
      .error CryptoError.invalidToken ∧
    decrypt_refresh_token 2 "??" = .error CryptoError.invalidToken :=
  ⟨c3_crypto_roundtrip.1 2 "tok",
   c3_crypto_roundtrip.2.1 2,
   c3_crypto_roundtrip.2.2.1 2 3 "tok" (by decide),
   c3_crypto_roundtrip.2.2.2 2 "??" (by decide) qq_not_token⟩

/-- C6 counterexample: for limit 0 (an allowed "every limit value"),
`read_recent_dedupe_keys` returns every stored key rather than at most 0
of them — the code treats a non-positive limit as "no limit". -/
theorem c6_counterexample :
    (read_recent_dedupe_keys c6Store 0).1 = ["u1|p|t"] ∧
    ¬ (((read_recent_dedupe_keys c6Store 0).1.length : Int) ≤ 0) := by
  constructor
  · rfl
  · decide

/-- C6 (amended): for every dedupe section content and every positive
limit, `read_recent_dedupe_keys` returns at most `limit` keys, and the
returned keys are a suffix of the column in append order of length
`min limit total` — the most recently appended ones.  (For a limit ≤ 0
the code returns all keys, see the counterexample.) -/
theorem c6_recent_keys_window (ss : Spreadsheet) (lim : Int) (hpos : 0 < lim) :
    ((read_recent_dedupe_keys ss lim).1.length : Int) ≤ lim ∧
    List.IsSuffix (read_recent_dedupe_keys ss lim).1 (dedupeColKeys ss) ∧
    ((read_recent_dedupe_keys ss lim).1.length : Int) =
      min lim ((dedupeColKeys ss).length : Int) := by
  rw [read_recent_fst]
  by_cases h : ((dedupeColKeys ss).length : Int) ≤ lim
  · rw [if_pos (Or.inr h)]
    refine ⟨h, List.suffix_refl _, ?_⟩
    rw [min_eq_right h]
  · rw [if_neg (by
      push_neg
      exact ⟨hpos, by push_neg at h; exact h⟩)]
    push_neg at h
    unfold takeLastN
    have htn : (lim.toNat : Int) = lim := Int.toNat_of_nonneg (le_of_lt hpos)
    have hlen : ((dedupeColKeys ss).drop
        ((dedupeColKeys ss).length - lim.toNat)).length = lim.toNat := by
      rw [List.length_drop]
      have : lim.toNat ≤ (dedupeColKeys ss).length := by
        have := le_of_lt h
        omega
      omega
    refine ⟨?_, List.drop_suffix _ _, ?_⟩
    · rw [hlen, htn]
    · rw [hlen, htn, min_eq_left (le_of_lt h)]

/-- C6 witness: the window bound applied at a concrete store and limit. -/
theorem c6_recent_keys_window_witness :
    ((read_recent_dedupe_keys c6Store 1).1.length : Int) ≤ 1 :=
  (c6_recent_keys_window c6Store 1 (by decide)).1

set_option maxRecDepth 100000 in
/-- C5: the two-pass overlap scenario.  First pass (cursor 0) accepts the
10:00/11:00/12:00 items: the log gains those three rows, the cursor
becomes T3 = 1704110400000 and their dedupe keys are recorded.  Second
pass re-fetches the 11:00 and 12:00 items plus the new 13:00 one: the log
gains exactly the one T4 row, the cursor becomes T4 = 1704114000000, and
the T2/T3 keys are recognized and suppressed, so each event is logged
exactly once. -/
theorem c5_two_pass_overlap :
    (sync_single_user c5Env1 (sampleStore "0" "k:rt" "")).isOk = true ∧
    logCells c5After1 = [LOG_HEADERS,
      ["January 1, 2024 at 12:00PM", "Tt3", "At3", "t3", "Ut3"],
      ["January 1, 2024 at 11:00AM", "Tt2", "At2", "t2", "Ut2"],
      ["January 1, 2024 at 10:00AM", "Tt1", "At1", "t1", "Ut1"]] ∧
    appStateValue c5After1 "last_synced_after_ts" = "1704110400000" ∧
    dedupeColKeys c5After1 = ["u1|2024-01-01T12:00:00Z|t3",
      "u1|2024-01-01T11:00:00Z|t2", "u1|2024-01-01T10:00:00Z|t1"] ∧
    (sync_single_user c5Env2 c5After1).isOk = true ∧
    logCells c5After2 = logCells c5After1 ++
      [["January 1, 2024 at 1:00PM", "Tt4", "At4", "t4", "Ut4"]] ∧
    appStateValue c5After2 "last_synced_after_ts" = "1704114000000" ∧
    dedupeColKeys c5After2 = dedupeColKeys c5After1 ++
      ["u1|2024-01-01T13:00:00Z|t4"] := by
  decide

theorem logCells_congr {ss' ss : Spreadsheet}
    (h : findWs ss' LOG_SHEET_TITLE = findWs ss LOG_SHEET_TITLE) :
    logCells ss' = logCells ss := by
  unfold logCells getWs
  rw [h]

theorem dedupeCells_congr {ss' ss : Spreadsheet}
    (h : findWs ss' DEDUPE_TITLE = findWs ss DEDUPE_TITLE) :
    dedupeCells ss' = dedupeCells ss := by
  unfold dedupeCells getWs
  rw [h]

theorem AppStateReadyWF_congr {ss' ss : Spreadsheet}
    (h : findWs ss' APP_STATE_TITLE = findWs ss APP_STATE_TITLE)
    (hwf : AppStateReadyWF ss) : AppStateReadyWF ss' := by
  refine ⟨AppStateWF_congr h hwf.1, ?_⟩
  rw [show getWs ss' APP_STATE_TITLE = getWs ss APP_STATE_TITLE from by
    unfold getWs; rw [h]]
  exact hwf.2

theorem AppStateReadyWF_write {ss : Spreadsheet} (hwf : AppStateWF ss)
    (u : PyDict) : AppStateReadyWF (write_app_state ss u) := by
  refine ⟨AppStateWF_write hwf u, ?_⟩
  rw [getWs_eq_of_find (write_app_state_cells hwf u)]
  unfold get_all_records
  intro h0
  rw [show (Worksheet.mk ((getWs ss APP_STATE_TITLE).rowAt 1 ::
      (withStateDefaults (pyMerge (rawStateDict ss) u)).map
        (fun kv => [kv.1, kv.2]))).cells.drop 1 =
    (withStateDefaults (pyMerge (rawStateDict ss) u)).map
      (fun kv => [kv.1, kv.2]) from rfl] at h0
  rw [List.map_eq_nil_iff, List.map_eq_nil_iff] at h0
  exact withStateDefaults_ne_nil _ h0

theorem dedupeColKeys_write (ss : Spreadsheet) (u : PyDict) :
    dedupeColKeys (write_app_state ss u) = dedupeColKeys ss :=
  dedupeColKeys_congr (findWs_write_app_state_other (by decide) ss u)

theorem logCells_write (ss : Spreadsheet) (u : PyDict) :
    logCells (write_app_state ss u) = logCells ss :=
  logCells_congr (findWs_write_app_state_other (by decide) ss u)

theorem dedupeCells_write (ss : Spreadsheet) (u : PyDict) :
    dedupeCells (write_app_state ss u) = dedupeCells ss :=
  dedupeCells_congr (findWs_write_app_state_other (by decide) ss u)

theorem refresh_token_of_none {resp : RefreshPayload} {rt : String}
    {tokens : SpotifyTokens} (hnone : resp.refresh_token = none)
    (h : refresh_access_token rt resp = .ok tokens) :
    tokens.refresh_token = rt := by
  unfold refresh_access_token at h
  split at h
  · simp at h
  · rw [Except.ok.injEq] at h
    rw [← h]
    rw [hnone]
    rfl

set_option maxHeartbeats 1000000 in
theorem syncAuthAndWrites_ok {env : SyncEnv} {state : AppState}
    {ss : Spreadsheet} {uid : String} {ss1 : Spreadsheet}
    (hwf : AppStateReadyWF ss)
    (h : syncAuthAndWrites env state ss = .ok (uid, ss1)) :
    AppStateReadyWF ss1 ∧
    (∀ k : String, k ≠ "refresh_token_enc" → k ≠ "spotify_user_id" →
      appStateValue ss1 k = appStateValue ss k) ∧
    dedupeColKeys ss1 = dedupeColKeys ss ∧
    logCells ss1 = logCells ss ∧
    dedupeCells ss1 = dedupeCells ss ∧
    uid = (if state.spotify_user_id = "" then
      (match env.profileResp with
       | .ok pid => pid
       | .error _ => "")
      else state.spotify_user_id) ∧
    (env.refreshResp.refresh_token = none →
      appStateValue ss1 "refresh_token_enc" = appStateValue ss "refresh_token_enc") ∧
    (state.spotify_user_id ≠ "" →
      appStateValue ss1 "spotify_user_id" = appStateValue ss "spotify_user_id") := by
  simp only [syncAuthAndWrites] at h
  split at h
  · simp at h
  split at h
  · simp at h
  case _ refresh_token hdec =>
  split at h
  · simp at h
  case _ tokens href =>
  by_cases hrot : tokens.refresh_token ≠ refresh_token
  · rw [if_pos hrot] at h
    by_cases huid : state.spotify_user_id = ""
    · rw [if_pos huid] at h
      split at h
      · simp at h
      case _ pid hprof =>
      rw [Except.ok.injEq, Prod.mk.injEq] at h
      obtain ⟨h1, h2⟩ := h
      subst h1
      subst h2
      refine ⟨AppStateReadyWF_write (AppStateWF_write hwf.1 _) _, ?_, ?_, ?_, ?_, ?_, ?_, ?_⟩
      · intro k hk1 hk2
        rw [appStateValue_write_notin (AppStateWF_write hwf.1 _)
          (by intro kv hkv; simp at hkv; rw [hkv]; exact fun hh => hk2 hh.symm)]
        rw [appStateValue_write_notin hwf.1
          (by intro kv hkv; simp at hkv; rw [hkv]; exact fun hh => hk1 hh.symm)]
      · rw [dedupeColKeys_write, dedupeColKeys_write]
      · rw [logCells_write, logCells_write]
      · rw [dedupeCells_write, dedupeCells_write]
      · rw [if_pos huid, hprof]
      · intro hnone
        exact absurd (refresh_token_of_none hnone href) hrot
      · exact fun hne => absurd huid hne
    · rw [if_neg huid] at h
      rw [Except.ok.injEq, Prod.mk.injEq] at h
      obtain ⟨h1, h2⟩ := h
      subst h1
      subst h2
      refine ⟨AppStateReadyWF_write hwf.1 _, ?_, ?_, ?_, ?_, ?_, ?_, ?_⟩
      · intro k hk1 hk2
        rw [appStateValue_write_notin hwf.1
          (by intro kv hkv; simp at hkv; rw [hkv]; exact fun hh => hk1 hh.symm)]
      · rw [dedupeColKeys_write]
      · rw [logCells_write]
      · rw [dedupeCells_write]
      · rw [if_neg huid]
      · intro hnone
        exact absurd (refresh_token_of_none hnone href) hrot
      · exact fun hne => appStateValue_write_notin hwf.1
          (by intro kv hkv; simp at hkv; rw [hkv]; exact fun hh => by simp at hh)
  · rw [if_neg hrot] at h
    by_cases huid : state.spotify_user_id = ""
    · rw [if_pos huid] at h
      split at h
      · simp at h
      case _ pid hprof =>
      rw [Except.ok.injEq, Prod.mk.injEq] at h
      obtain ⟨h1, h2⟩ := h
      subst h1
      subst h2
      refine ⟨AppStateReadyWF_write hwf.1 _, ?_, ?_, ?_, ?_, ?_, ?_, ?_⟩
      · intro k hk1 hk2
        rw [appStateValue_write_notin hwf.1
          (by intro kv hkv; simp at hkv; rw [hkv]; exact fun hh => hk2 hh.symm)]
      · rw [dedupeColKeys_write]
      · rw [logCells_write]
      · rw [dedupeCells_write]
      · rw [if_pos huid, hprof]
      · intro hnone
        rw [appStateValue_write_notin hwf.1 (by intro kv hkv; simp at hkv; rw [hkv]; exact fun hh => by simp at hh)]
      · exact fun hne => absurd huid hne
    · rw [if_neg huid] at h
      rw [Except.ok.injEq, Prod.mk.injEq] at h
      obtain ⟨h1, h2⟩ := h
      subst h1
      subst h2
      refine ⟨hwf, fun k h1 h2 => rfl, rfl, rfl, rfl, ?_, fun hnone => rfl,
        fun hne => rfl⟩
      rw [if_neg huid]

theorem syncCommit_pre {ss2 : Spreadsheet}
    (hwf : AppStateReadyWF ss2) (rows : List (List String))
    (keys : List String) :
    AppStateWF (if rows = [] then ss2
      else append_dedupe_keys (append_log_rows ss2 rows) keys) ∧
    (∀ k : String, appStateValue (if rows = [] then ss2
      else append_dedupe_keys (append_log_rows ss2 rows) keys) k =
      appStateValue ss2 k) := by
  split
  · exact ⟨hwf.1, fun k => rfl⟩
  · have hfd : findWs (append_dedupe_keys (append_log_rows ss2 rows) keys)
        APP_STATE_TITLE = findWs ss2 APP_STATE_TITLE := by
      rw [findWs_append_dedupe_keys_other (by decide),
        findWs_append_log_rows_other (by decide)]
    exact ⟨AppStateWF_congr hfd hwf.1, fun k => appStateValue_congr hfd k⟩

theorem syncCommit_cursor {env : SyncEnv} {ss2 : Spreadsheet}
    (hwf : AppStateReadyWF ss2) (rows : List (List String))
    (keys : List String) (mx : Int) :
    appStateValue (syncCommit env ss2 (rows, keys, mx)) "last_synced_after_ts" =
      if mx = 0 then appStateValue ss2 "last_synced_after_ts"
      else toString mx := by
  obtain ⟨h3wf, h3val⟩ := syncCommit_pre hwf rows keys
  simp only [syncCommit]
  by_cases hmx : mx = 0
  · rw [if_pos hmx, if_pos hmx]
    rw [appStateValue_write_notin h3wf
      (by intro kv hkv; simp at hkv; rcases hkv with h | h <;> rw [h] <;>
        exact fun hh => by simp at hh)]
    exact h3val _
  · rw [if_neg hmx, if_neg hmx]
    rw [show ([("updated_at", env.now), ("last_error", "")] ++
      [("last_synced_after_ts", toString mx)]) =
      [("updated_at", env.now), ("last_error", ""),
       ("last_synced_after_ts", toString mx)] from rfl]
    rw [appStateValue_write_present h3wf _ _ (by
      rw [show pyMerge (rawStateDict _) [("updated_at", env.now), ("last_error", ""),
        ("last_synced_after_ts", toString mx)] =
        pyInsert (pyInsert (pyInsert (rawStateDict _) "updated_at" env.now)
          "last_error" "") "last_synced_after_ts" (toString mx) from rfl]
      rw [pyHasKey_pyInsert]
      simp)]
    rw [show pyMerge (rawStateDict _) [("updated_at", env.now), ("last_error", ""),
      ("last_synced_after_ts", toString mx)] =
      pyInsert (pyInsert (pyInsert (rawStateDict _) "updated_at" env.now)
        "last_error" "") "last_synced_after_ts" (toString mx) from rfl]
    rw [pyGet_pyInsert_same]

theorem syncCommit_frame {env : SyncEnv} {ss2 : Spreadsheet}
    (hwf : AppStateReadyWF ss2) (rows : List (List String))
    (keys : List String) (mx : Int) {k : String}
    (h1 : k ≠ "updated_at") (h2 : k ≠ "last_error")
    (h3 : k ≠ "last_synced_after_ts") :
    appStateValue (syncCommit env ss2 (rows, keys, mx)) k =
      appStateValue ss2 k := by
  obtain ⟨h3wf, h3val⟩ := syncCommit_pre hwf rows keys
  simp only [syncCommit]
  by_cases hmx : mx = 0
  · rw [if_pos hmx]
    rw [appStateValue_write_notin h3wf
      (by intro kv hkv; simp at hkv; rcases hkv with h | h <;> rw [h] <;>
        exact fun hh => by rw [← hh] at h1 h2; first | exact h1 rfl | exact h2 rfl)]
    exact h3val _
  · rw [if_neg hmx]
    rw [appStateValue_write_notin h3wf
      (by intro kv hkv; simp at hkv; rcases hkv with h | h | h <;> rw [h] <;>
        intro hh <;> rw [← hh] at h1 h2 h3 <;>
        first | exact h1 rfl | exact h2 rfl | exact h3 rfl)]
    exact h3val _

theorem syncCommit_updated_at {env : SyncEnv} {ss2 : Spreadsheet}
    (hwf : AppStateReadyWF ss2) (rows : List (List String))
    (keys : List String) (mx : Int) :
    appStateValue (syncCommit env ss2 (rows, keys, mx)) "updated_at" =
      env.now := by
  obtain ⟨h3wf, h3val⟩ := syncCommit_pre hwf rows keys
  simp only [syncCommit]
  by_cases hmx : mx = 0
  · rw [if_pos hmx]
    rw [appStateValue_write_present h3wf _ _ (by
      rw [show pyMerge (rawStateDict (if rows = [] then ss2
          else append_dedupe_keys (append_log_rows ss2 rows) keys))
          [("updated_at", env.now), ("last_error", "")] =
        pyInsert (pyInsert (rawStateDict (if rows = [] then ss2
          else append_dedupe_keys (append_log_rows ss2 rows) keys))
          "updated_at" env.now) "last_error" "" from rfl]
      rw [pyHasKey_pyInsert, pyHasKey_pyInsert]
      simp)]
    rw [show pyMerge (rawStateDict (if rows = [] then ss2
        else append_dedupe_keys (append_log_rows ss2 rows) keys))
        [("updated_at", env.now), ("last_error", "")] =
      pyInsert (pyInsert (rawStateDict (if rows = [] then ss2
        else append_dedupe_keys (append_log_rows ss2 rows) keys))
        "updated_at" env.now) "last_error" "" from rfl]
    rw [pyGet_pyInsert_other (by decide), pyGet_pyInsert_same]
  · rw [if_neg hmx]
    rw [appStateValue_write_present h3wf _ _ (by
      rw [show pyMerge (rawStateDict (if rows = [] then ss2
          else append_dedupe_keys (append_log_rows ss2 rows) keys))
          ([("updated_at", env.now), ("last_error", "")] ++
            [("last_synced_after_ts", toString mx)]) =
        pyInsert (pyInsert (pyInsert (rawStateDict (if rows = [] then ss2
          else append_dedupe_keys (append_log_rows ss2 rows) keys))
          "updated_at" env.now) "last_error" "")
          "last_synced_after_ts" (toString mx) from rfl]
      rw [pyHasKey_pyInsert, pyHasKey_pyInsert, pyHasKey_pyInsert]
      simp)]
    rw [show pyMerge (rawStateDict (if rows = [] then ss2
        else append_dedupe_keys (append_log_rows ss2 rows) keys))
        ([("updated_at", env.now), ("last_error", "")] ++
          [("last_synced_after_ts", toString mx)]) =
      pyInsert (pyInsert (pyInsert (rawStateDict (if rows = [] then ss2
        else append_dedupe_keys (append_log_rows ss2 rows) keys))
        "updated_at" env.now) "last_error" "")
        "last_synced_after_ts" (toString mx) from rfl]
    rw [pyGet_pyInsert_other (by decide), pyGet_pyInsert_other (by decide),
      pyGet_pyInsert_same]

theorem syncCommit_last_error {env : SyncEnv} {ss2 : Spreadsheet}
    (hwf : AppStateReadyWF ss2) (rows : List (List String))
    (keys : List String) (mx : Int) :
    appStateValue (syncCommit env ss2 (rows, keys, mx)) "last_error" = "" := by
  obtain ⟨h3wf, h3val⟩ := syncCommit_pre hwf rows keys
  simp only [syncCommit]
  by_cases hmx : mx = 0
  · rw [if_pos hmx]
    rw [appStateValue_write_present h3wf _ _ (by
      rw [show pyMerge (rawStateDict (if rows = [] then ss2
          else append_dedupe_keys (append_log_rows ss2 rows) keys))
          [("updated_at", env.now), ("last_error", "")] =
        pyInsert (pyInsert (rawStateDict (if rows = [] then ss2
          else append_dedupe_keys (append_log_rows ss2 rows) keys))
          "updated_at" env.now) "last_error" "" from rfl]
      rw [pyHasKey_pyInsert]
      simp)]
    rw [show pyMerge (rawStateDict (if rows = [] then ss2
        else append_dedupe_keys (append_log_rows ss2 rows) keys))
        [("updated_at", env.now), ("last_error", "")] =
      pyInsert (pyInsert (rawStateDict (if rows = [] then ss2
        else append_dedupe_keys (append_log_rows ss2 rows) keys))
        "updated_at" env.now) "last_error" "" from rfl]
    rw [pyGet_pyInsert_same]
  · rw [if_neg hmx]
    rw [appStateValue_write_present h3wf _ _ (by
      rw [show pyMerge (rawStateDict (if rows = [] then ss2
          else append_dedupe_keys (append_log_rows ss2 rows) keys))
          ([("updated_at", env.now), ("last_error", "")] ++
            [("last_synced_after_ts", toString mx)]) =
        pyInsert (pyInsert (pyInsert (rawStateDict (if rows = [] then ss2
          else append_dedupe_keys (append_log_rows ss2 rows) keys))
          "updated_at" env.now) "last_error" "")
          "last_synced_after_ts" (toString mx) from rfl]
      rw [pyHasKey_pyInsert, pyHasKey_pyInsert]
      simp)]
    rw [show pyMerge (rawStateDict (if rows = [] then ss2
        else append_dedupe_keys (append_log_rows ss2 rows) keys))
        ([("updated_at", env.now), ("last_error", "")] ++
          [("last_synced_after_ts", toString mx)]) =
      pyInsert (pyInsert (pyInsert (rawStateDict (if rows = [] then ss2
        else append_dedupe_keys (append_log_rows ss2 rows) keys))
        "updated_at" env.now) "last_error" "")
        "last_synced_after_ts" (toString mx) from rfl]
    rw [pyGet_pyInsert_other (by decide), pyGet_pyInsert_same]

theorem syncFetchCommit_cursor {env : SyncEnv} {state : AppState}
    {uid : String} {ss1 ss2 : Spreadsheet} {items : List PlayItem}
    {rows : List (List String)} {keys : List String} {mx : Int}
    (hwf : AppStateReadyWF ss1)
    (hfetch : env.fetchResp (compute_after_ms state
      env.cfg.spotify_recently_played_lookback_minutes) = .ok items)
    (hproc : processItems uid (if state.timezone = "" then "UTC"
      else state.timezone) env.tzdb
      (read_recent_dedupe_keys ss1 env.cfg.dedupe_read_rows).1 items =
      .ok (rows, keys, mx))
    (h : syncFetchCommit env state uid ss1 = .ok ss2) :
    appStateValue ss2 "last_synced_after_ts" =
      if mx = 0 then appStateValue ss1 "last_synced_after_ts"
      else toString mx := by
  simp only [syncFetchCommit, hfetch] at h
  by_cases hit : items = []
  · rw [if_pos hit] at h
    rw [hit] at hproc
    rw [show processItems uid (if state.timezone = "" then "UTC"
      else state.timezone) env.tzdb
      (read_recent_dedupe_keys ss1 env.cfg.dedupe_read_rows).1 [] =
      .ok ([], [], 0) from rfl] at hproc
    rw [Except.ok.injEq, Prod.mk.injEq, Prod.mk.injEq] at hproc
    obtain ⟨hr, hk, hm⟩ := hproc
    rw [Except.ok.injEq] at h
    rw [← h, ← hm]
    rw [if_pos rfl]
    exact appStateValue_write_notin hwf.1
      (by intro kv hkv; simp at hkv; rw [hkv]; exact fun hh => by simp at hh)
  · rw [if_neg hit] at h
    simp only [hproc] at h
    rw [Except.ok.injEq] at h
    rw [← h]
    rw [syncCommit_cursor (AppStateReadyWF_congr (by
      rw [read_recent_snd, findWs_ensure_headers_other (by decide),
        findWs_get_or_create_other (by decide)]) hwf) rows keys mx]
    by_cases hmx : mx = 0
    · rw [if_pos hmx, if_pos hmx]
      exact appStateValue_congr (by
        rw [read_recent_snd, findWs_ensure_headers_other (by decide),
          findWs_get_or_create_other (by decide)]) _
    · rw [if_neg hmx, if_neg hmx]

theorem syncFetchCommit_empty {env : SyncEnv} {state : AppState}
    {uid : String} {ss1 ss2 : Spreadsheet}
    (hfetch : env.fetchResp (compute_after_ms state
      env.cfg.spotify_recently_played_lookback_minutes) = .ok [])
    (h : syncFetchCommit env state uid ss1 = .ok ss2) :
    ss2 = write_app_state ss1 [("updated_at", env.now)] := by
  simp only [syncFetchCommit, hfetch] at h
  rw [if_pos trivial] at h
  rw [Except.ok.injEq] at h
  exact h.symm

theorem syncFetchCommit_ok_ne {env : SyncEnv} {state : AppState}
    {uid : String} {ss1 ss2 : Spreadsheet} {items : List PlayItem}
    {rows : List (List String)} {keys : List String} {mx : Int}
    (hfetch : env.fetchResp (compute_after_ms state
      env.cfg.spotify_recently_played_lookback_minutes) = .ok items)
    (hit : items ≠ [])
    (hproc : processItems uid (if state.timezone = "" then "UTC"
      else state.timezone) env.tzdb
      (read_recent_dedupe_keys ss1 env.cfg.dedupe_read_rows).1 items =
      .ok (rows, keys, mx))
    (h : syncFetchCommit env state uid ss1 = .ok ss2) :
    ss2 = syncCommit env
      (read_recent_dedupe_keys ss1 env.cfg.dedupe_read_rows).2
      (rows, keys, mx) := by
  simp only [syncFetchCommit, hfetch] at h
  rw [if_neg hit] at h
  simp only [hproc] at h
  rw [Except.ok.injEq] at h
  exact h.symm

theorem sync_single_user_ok {env : SyncEnv} {ss0 ss' : Spreadsheet}
    (h : sync_single_user env ss0 = .ok ss') :
    ∃ uid ss1,
      syncAuthAndWrites env
        (read_app_state (prepare_user_sheet ss0 env.now none)).1
        (read_app_state (prepare_user_sheet ss0 env.now none)).2 =
        .ok (uid, ss1) ∧
      syncFetchCommit env
        (read_app_state (prepare_user_sheet ss0 env.now none)).1 uid ss1 =
        .ok ss' := by
  unfold sync_single_user at h
  cases hr : syncAuthAndWrites env
      (read_app_state (prepare_user_sheet ss0 env.now none)).1
      (read_app_state (prepare_user_sheet ss0 env.now none)).2 with
  | error e =>
    rw [hr] at h
    exact absurd h (by simp)
  | ok p =>
    rw [hr] at h
    exact ⟨p.1, p.2, rfl, h⟩

set_option maxRecDepth 100000 in
/-- C1 counterexample: a pass whose only accepted item is a late delivery
at 1699999000000 ms — inside the lookback window the pass queries
(after = 1699996400000) but older than the stored cursor 1700000000000 —
succeeds and persists the smaller value: the cursor regresses, because
worker.py lines 208-209 never compare the new maximum to the old value. -/
theorem c1_counterexample :
    (sync_single_user c1Env c1Before).isOk = true ∧
    appStateValue c1Before "last_synced_after_ts" = "1700000000000" ∧
    appStateValue c1After "last_synced_after_ts" = "1699999000000" ∧
    passAfterMs c1Env c1Before = some 1699996400000 ∧
    (1699999000000 : Int) < 1700000000000 := by
  decide

/-- C1 (amended): for every pass over an established store that succeeds
after fetching `items` and accepting `(rows, keys, mx)`, the persisted
cursor `last_synced_after_ts` equals `str mx` whenever the maximum
accepted timestamp `mx` is nonzero — with no comparison against the old
value, so the cursor can regress (see the counterexample) — and is left
unchanged when the pass accepts zero events (`mx = 0`). -/
theorem c1_cursor_update {env : SyncEnv} {ss ss' : Spreadsheet}
    {items : List PlayItem} {rows : List (List String)} {keys : List String}
    {mx : Int}
    (hwf : AppStateReadyWF ss)
    (hok : sync_single_user env ss = .ok ss')
    (hfetch : env.fetchResp (passAfterMs env ss) = .ok items)
    (hproc : processItems (passUid env ss) (passTz env ss) env.tzdb
      (passWindow env ss) items = .ok (rows, keys, mx)) :
    appStateValue ss' "last_synced_after_ts" =
      if mx = 0 then appStateValue ss "last_synced_after_ts"
      else toString mx := by
  have hwfP := AppStateReadyWF_prepare hwf env.now none
  obtain ⟨uid, ss1, heq, hok2⟩ := sync_single_user_ok hok
  have h2 : (read_app_state (prepare_user_sheet ss env.now none)).2 =
      prepare_user_sheet ss env.now none := by
    rw [read_app_state_wf hwfP.1]
  rw [h2] at heq
  obtain ⟨h1wf, hframe, hdk, hlc, hdc, huid, hrte, hupres⟩ :=
    syncAuthAndWrites_ok hwfP heq
  have hU : passUid env ss = uid := huid.symm
  have hW : (read_recent_dedupe_keys ss1 env.cfg.dedupe_read_rows).1 =
      passWindow env ss := by
    show (read_recent_dedupe_keys ss1 env.cfg.dedupe_read_rows).1 =
      (read_recent_dedupe_keys (prepare_user_sheet ss env.now none)
        env.cfg.dedupe_read_rows).1
    rw [read_recent_fst, read_recent_fst, hdk]
  rw [hU, show passTz env ss =
    (if (read_app_state (prepare_user_sheet ss env.now none)).1.timezone = ""
     then "UTC"
     else (read_app_state (prepare_user_sheet ss env.now none)).1.timezone)
    from rfl, ← hW] at hproc
  rw [syncFetchCommit_cursor h1wf hfetch hproc hok2]
  by_cases hmx : mx = 0
  · rw [if_pos hmx, if_pos hmx, hframe _ (by decide) (by decide),
      appStateValue_prepare hwf]
  · rw [if_neg hmx, if_neg hmx]

set_option maxRecDepth 100000 in
/-- C1 witness: the cursor rule applied to a concrete successful pass
accepting a single item at 1704103200000 ms. -/
theorem c1_cursor_update_witness :
    appStateValue c1wAfter "last_synced_after_ts" =
      if (1704103200000 : Int) = 0 then
        appStateValue c1wBefore "last_synced_after_ts"
      else toString (1704103200000 : Int) :=
  @c1_cursor_update c1wEnv c1wBefore c1wAfter
    [sampleItem "2024-01-01T10:00:00Z" "t1"]
    [["January 1, 2024 at 10:00AM", "Tt1", "At1", "t1", "Ut1"]]
    ["u1|2024-01-01T10:00:00Z|t1"] 1704103200000
    ⟨⟨sampleStateWs "0" "k:rt" "", rfl, rfl⟩, by decide⟩
    rfl rfl rfl

set_option maxRecDepth 100000 in
/-- C4 counterexample: a successful pass over a store whose last_error is
"boom" with a provider returning no items leaves "boom" in place — the
early-return at worker.py lines 159-161 writes only `updated_at` and does
not clear the error, contradicting "a cleared last_error". -/
theorem c4_counterexample :
    (sync_single_user c4Env c4Before).isOk = true ∧
    c4Env.fetchResp (passAfterMs c4Env c4Before) = .ok [] ∧
    appStateValue c4Before "last_error" = "boom" ∧
    appStateValue c4After "last_error" = "boom" ∧
    appStateValue c4After "updated_at" = "N9" :=
  ⟨by decide, rfl, by decide, by decide, by decide⟩

/-- C4 (amended): in a successful pass over an established store (with a
non-rotating refresh and a stored account id), if the provider returns no
items the pass writes only `updated_at` — the stale `last_error` is NOT
cleared — and every other state key is unchanged; if the provider returns
a nonempty page in which every item is filtered as a duplicate, the pass
writes `updated_at` and clears `last_error`, and every other state key,
including the cursor `last_synced_after_ts`, is unchanged. -/
theorem c4_empty_or_dup_writes {env : SyncEnv} {ss ss' : Spreadsheet}
    {items : List PlayItem}
    (hwf : AppStateReadyWF ss)
    (hnone : env.refreshResp.refresh_token = none)
    (hu : (passPreparedState env ss).spotify_user_id ≠ "")
    (hok : sync_single_user env ss = .ok ss')
    (hfetch : env.fetchResp (passAfterMs env ss) = .ok items) :
    (items = [] →
      appStateValue ss' "updated_at" = env.now ∧
      ∀ k, k ≠ "updated_at" → appStateValue ss' k = appStateValue ss k) ∧
    (items ≠ [] →
      ∀ keys, processItems (passUid env ss) (passTz env ss) env.tzdb
          (passWindow env ss) items = .ok ([], keys, 0) →
      appStateValue ss' "updated_at" = env.now ∧
      appStateValue ss' "last_error" = "" ∧
      ∀ k, k ≠ "updated_at" → k ≠ "last_error" →
        appStateValue ss' k = appStateValue ss k) := by
  have hwfP := AppStateReadyWF_prepare hwf env.now none
  obtain ⟨uid, ss1, heq, hok2⟩ := sync_single_user_ok hok
  have h2 : (read_app_state (prepare_user_sheet ss env.now none)).2 =
      prepare_user_sheet ss env.now none := by
    rw [read_app_state_wf hwfP.1]
  rw [h2] at heq
  obtain ⟨h1wf, hframe, hdk, hlc, hdc, huid, hrte, hupres⟩ :=
    syncAuthAndWrites_ok hwfP heq
  have hS : ∀ k : String, appStateValue ss1 k = appStateValue ss k := by
    intro k
    by_cases hk1 : k = "refresh_token_enc"
    · rw [hk1]
      exact (hrte hnone).trans (appStateValue_prepare hwf env.now none _)
    by_cases hk2 : k = "spotify_user_id"
    · rw [hk2]
      exact (hupres hu).trans (appStateValue_prepare hwf env.now none _)
    exact (hframe k hk1 hk2).trans (appStateValue_prepare hwf env.now none k)
  constructor
  · intro hit
    subst hit
    have hss' := syncFetchCommit_empty hfetch hok2
    constructor
    · rw [hss', appStateValue_write_present h1wf.1 _ _ (by
        rw [show pyMerge (rawStateDict ss1) [("updated_at", env.now)] =
          pyInsert (rawStateDict ss1) "updated_at" env.now from rfl]
        rw [pyHasKey_pyInsert]
        simp)]
      rw [show pyMerge (rawStateDict ss1) [("updated_at", env.now)] =
        pyInsert (rawStateDict ss1) "updated_at" env.now from rfl]
      rw [pyGet_pyInsert_same]
    · intro k hk
      rw [hss', appStateValue_write_notin h1wf.1
        (by intro kv hkv; simp at hkv; rw [hkv]; exact fun hh => hk hh.symm)]
      exact hS k
  · intro hit keys hproc
    have hU : passUid env ss = uid := huid.symm
    have hW : (read_recent_dedupe_keys ss1 env.cfg.dedupe_read_rows).1 =
        passWindow env ss := by
      show (read_recent_dedupe_keys ss1 env.cfg.dedupe_read_rows).1 =
        (read_recent_dedupe_keys (prepare_user_sheet ss env.now none)
          env.cfg.dedupe_read_rows).1
      rw [read_recent_fst, read_recent_fst, hdk]
    rw [hU, show passTz env ss =
      (if (read_app_state (prepare_user_sheet ss env.now none)).1.timezone = ""
       then "UTC"
       else (read_app_state (prepare_user_sheet ss env.now none)).1.timezone)
      from rfl, ← hW] at hproc
    have hss' := syncFetchCommit_ok_ne hfetch hit hproc hok2
    have hfdR : findWs (read_recent_dedupe_keys ss1
        env.cfg.dedupe_read_rows).2 APP_STATE_TITLE =
        findWs ss1 APP_STATE_TITLE := by
      rw [read_recent_snd, findWs_ensure_headers_other (by decide),
        findWs_get_or_create_other (by decide)]
    have hwfR := AppStateReadyWF_congr hfdR h1wf
    have hRS : ∀ k, appStateValue (read_recent_dedupe_keys ss1
        env.cfg.dedupe_read_rows).2 k = appStateValue ss1 k :=
      fun k => appStateValue_congr hfdR k
    refine ⟨?_, ?_, ?_⟩
    · rw [hss', syncCommit_updated_at hwfR [] keys 0]
    · rw [hss', syncCommit_last_error hwfR [] keys 0]
    · intro k hk1 hk2
      by_cases hk3 : k = "last_synced_after_ts"
      · rw [hk3, hss', syncCommit_cursor hwfR [] keys 0,
          if_pos (Eq.refl (0 : Int)), hRS _]
        exact hS _
      · rw [hss', syncCommit_frame hwfR [] keys 0 hk1 hk2 hk3, hRS _]
        exact hS _

set_option maxRecDepth 100000 in
/-- C4 witness: the all-duplicates case at a concrete store whose dedupe
window already holds the fetched item's key. -/
theorem c4_empty_or_dup_writes_witness :
    appStateValue c4wAfter "updated_at" = "N8" ∧
    appStateValue c4wAfter "last_error" = "" ∧
    appStateValue c4wAfter "last_synced_after_ts" =
      appStateValue c4wStore "last_synced_after_ts" :=
  ((@c4_empty_or_dup_writes c4wEnv c4wStore c4wAfter
      [sampleItem "2024-01-01T10:00:00Z" "t1"]
      ⟨⟨sampleStateWs "5" "k:rt" "e0", rfl, rfl⟩, by decide⟩
      rfl (by decide) rfl rfl).2 (by decide) [] rfl).imp id
    (fun hp => ⟨hp.1, hp.2 _ (by decide) (by decide)⟩)

theorem findWs_read_recent_app_state (ss1 : Spreadsheet) (lim : Int) :
    findWs (read_recent_dedupe_keys ss1 lim).2 APP_STATE_TITLE =
      findWs ss1 APP_STATE_TITLE := by
  rw [read_recent_snd, findWs_ensure_headers_other (by decide),
    findWs_get_or_create_other (by decide)]

theorem syncFetchCommit_frame {env : SyncEnv} {state : AppState}
    {uid : String} {ss1 ss2 : Spreadsheet} {k : String}
    (hwf : AppStateReadyWF ss1)
    (h : syncFetchCommit env state uid ss1 = .ok ss2)
    (h1 : k ≠ "updated_at") (h2 : k ≠ "last_error")
    (h3 : k ≠ "last_synced_after_ts") :
    appStateValue ss2 k = appStateValue ss1 k := by
  cases hr : env.fetchResp (compute_after_ms state
      env.cfg.spotify_recently_played_lookback_minutes) with
  | error m =>
    simp only [syncFetchCommit, hr] at h
    exact absurd h (by simp)
  | ok items =>
    simp only [syncFetchCommit, hr] at h
    by_cases hit : items = []
    · rw [if_pos hit] at h
      rw [Except.ok.injEq] at h
      rw [← h]
      exact appStateValue_write_notin hwf.1
        (by intro kv hkv; simp at hkv; rw [hkv]; exact fun hh => h1 hh.symm)
    · rw [if_neg hit] at h
      cases hp : processItems uid (if state.timezone = "" then "UTC"
          else state.timezone) env.tzdb
          (read_recent_dedupe_keys ss1 env.cfg.dedupe_read_rows).1 items with
      | error e =>
        simp only [hp] at h
        exact absurd h (by simp)
      | ok res =>
        simp only [hp] at h
        rw [Except.ok.injEq] at h
        rw [← h]
        obtain ⟨rows, keys, mx⟩ := res
        rw [syncCommit_frame (AppStateReadyWF_congr
          (findWs_read_recent_app_state ss1 env.cfg.dedupe_read_rows) hwf)
          rows keys mx h1 h2 h3]
        exact appStateValue_congr
          (findWs_read_recent_app_state ss1 env.cfg.dedupe_read_rows) k

/-- C10: a refresh response without a `refresh_token` field falls back to
the input token — `refresh_access_token` returns tokens whose
`refresh_token` equals the one sent — and consequently a successful pass
leaves the stored `refresh_token_enc` unchanged, because worker.py lines
135-141 re-encrypt and persist only when the returned token differs from
the decrypted input. -/
theorem c10_refresh_token_fallback {env : SyncEnv} {ss ss' : Spreadsheet}
    (hwf : AppStateReadyWF ss)
    (hnone : env.refreshResp.refresh_token = none)
    (hok : sync_single_user env ss = .ok ss') :
    (∀ rt t, refresh_access_token rt env.refreshResp = .ok t →
      t.refresh_token = rt) ∧
    appStateValue ss' "refresh_token_enc" =
      appStateValue ss "refresh_token_enc" := by
  constructor
  · intro rt t href
    exact refresh_token_of_none hnone href
  · have hwfP := AppStateReadyWF_prepare hwf env.now none
    obtain ⟨uid, ss1, heq, hok2⟩ := sync_single_user_ok hok
    have h2 : (read_app_state (prepare_user_sheet ss env.now none)).2 =
        prepare_user_sheet ss env.now none := by
      rw [read_app_state_wf hwfP.1]
    rw [h2] at heq
    obtain ⟨h1wf, hframe, hdk, hlc, hdc, huid, hrte, hupres⟩ :=
      syncAuthAndWrites_ok hwfP heq
    rw [syncFetchCommit_frame h1wf hok2 (by decide) (by decide) (by decide)]
    rw [hrte hnone, appStateValue_prepare hwf]

set_option maxRecDepth 100000 in
/-- C10 witness: the fallback and the unchanged stored token at a
concrete pass whose refresh response has no `refresh_token` field. -/
theorem c10_refresh_token_fallback_witness :
    (SpotifyTokens.refresh_token ⟨"at", "rt", 3600, "Bearer", none⟩ = "rt") ∧
    appStateValue c10After "refresh_token_enc" =
      appStateValue c10Store "refresh_token_enc" :=
  (fun H => ⟨H.1 "rt" ⟨"at", "rt", 3600, "Bearer", none⟩ rfl, H.2⟩)
    (@c10_refresh_token_fallback c10Env c10Store c10After
      ⟨⟨sampleStateWs "7" "k:rt" "x", rfl, rfl⟩, by decide⟩ rfl rfl)

set_option maxRecDepth 100000 in
/-- C9: the duplicate check is made only against the dedupe keys read at
the start of the pass.  In general, a page holding the same item twice —
identical `played_at`/`track_id`, shared key absent from the stored
window — yields both log rows and the identical key twice; concretely, a
pass over such a page appends two equal rows to the log and the key twice
to the dedupe section. -/
theorem c9_within_pass_duplicates :
    (∀ (uid tzSel : String) (tzdb : TzDb) (recent : List String)
       (item : PlayItem) (pa tid ds : String) (ms : Int),
       item.played_at = some pa → pa ≠ "" →
       item.track_id = some tid → tid ≠ "" →
       recent.contains (make_dedupe_key uid pa item.track_id) = false →
       format_log_datetime pa tzSel tzdb = .ok ds →
       playedAtToMs pa = some ms →
       processItems uid tzSel tzdb recent [item, item] =
         .ok ([[ds, item.track_name, item.artist_names, tid,
                 item.spotify_url],
               [ds, item.track_name, item.artist_names, tid,
                 item.spotify_url]],
              [make_dedupe_key uid pa item.track_id,
               make_dedupe_key uid pa item.track_id],
              if ms > 0 then ms else 0)) ∧
    ((sync_single_user (c9Env c9Items) (c9Store [])).isOk = true ∧
     logCells c9DupAfter = [LOG_HEADERS,
       ["January 1, 2024 at 10:00AM", "Tt1", "At1", "t1", "Ut1"],
       ["January 1, 2024 at 10:00AM", "Tt1", "At1", "t1", "Ut1"]] ∧
     dedupeColKeys c9DupAfter =
       ["u1|2024-01-01T10:00:00Z|t1", "u1|2024-01-01T10:00:00Z|t1"]) := by
  constructor
  · intro uid tzSel tzdb recent item pa tid ds ms hpa hpane htid htidne
      hmiss hfmt hms
    simp only [processItems, processItemsGo, hpa, htid, Option.getD_some,
      strFalsy, decide_eq_false hpane, decide_eq_false htidne, Bool.or_self,
      Bool.false_eq_true, if_false, hmiss, hfmt, hms]
    have hmiss2 : make_dedupe_key uid pa (some tid) ∉ recent := by
      rw [htid] at hmiss
      simpa using hmiss
    by_cases hms0 : ms > 0
    · simp [hms0, lt_irrefl, hmiss2]
    · simp [hms0, hmiss2]
  · refine ⟨by decide, by decide, by decide⟩

set_option maxRecDepth 100000 in
/-- C9 witness: the general duplicated-page rule applied at concrete
inputs with an empty stored window. -/
theorem c9_within_pass_duplicates_witness :
    processItems "u1" "UTC" utcOnlyTzDb []
      [sampleItem "2024-01-01T10:00:00Z" "t1",
       sampleItem "2024-01-01T10:00:00Z" "t1"] =
      .ok ([["January 1, 2024 at 10:00AM", "Tt1", "At1", "t1", "Ut1"],
            ["January 1, 2024 at 10:00AM", "Tt1", "At1", "t1", "Ut1"]],
           ["u1|2024-01-01T10:00:00Z|t1", "u1|2024-01-01T10:00:00Z|t1"],
           if (1704103200000 : Int) > 0 then 1704103200000 else 0) :=
  c9_within_pass_duplicates.1 "u1" "UTC" utcOnlyTzDb []
    (sampleItem "2024-01-01T10:00:00Z" "t1") "2024-01-01T10:00:00Z" "t1"
    "January 1, 2024 at 10:00AM" 1704103200000 rfl (by decide) rfl
    (by decide) rfl rfl rfl

theorem hidden_setWs (ss : Spreadsheet) (t : String) (w : Worksheet) :
    (setWs ss t w).hiddenTitles = ss.hiddenTitles := by
  unfold setWs
  split <;> rfl

theorem hidden_get_or_create (ss : Spreadsheet) (t : String) :
    (get_or_create_worksheet ss t).hiddenTitles = ss.hiddenTitles := by
  unfold get_or_create_worksheet
  split
  · rfl
  · exact hidden_setWs ss t ⟨[]⟩

theorem hidden_ensure_headers (ss : Spreadsheet) (t : String)
    (hs : List String) :
    (ensure_headers ss t hs).hiddenTitles = ss.hiddenTitles := by
  simp only [ensure_headers]
  split
  · rfl
  · exact hidden_setWs ss t _

theorem hidden_modifyWs (ss : Spreadsheet) (t : String)
    (f : Worksheet → Worksheet) :
    (modifyWs ss t f).hiddenTitles = ss.hiddenTitles :=
  hidden_setWs ss t _

theorem set_hidden_of_hidden {ss : Spreadsheet} {t : String}
    (hcon : ss.hiddenTitles.contains t = true) :
    set_hidden ss t true = ss := by
  unfold set_hidden
  by_cases hw : hasWsTitle ss t = false
  · rw [if_pos hw]
  · rw [if_neg hw]
    rw [if_pos rfl, if_pos hcon]

theorem contains_set_hidden_true {ss : Spreadsheet} {t' : String}
    (t : String) (h : ss.hiddenTitles.contains t' = true) :
    (set_hidden ss t true).hiddenTitles.contains t' = true := by
  unfold set_hidden
  by_cases hw : hasWsTitle ss t = false
  · rw [if_pos hw]
    exact h
  · rw [if_neg hw]
    rw [if_pos rfl]
    by_cases hcon : ss.hiddenTitles.contains t = true
    · rw [if_pos hcon]
      exact h
    · rw [if_neg (by simpa using hcon)]
      have h2 : t' ∈ ss.hiddenTitles := by simpa using h
      show (ss.hiddenTitles ++ [t]).contains t' = true
      simp [h2]

theorem contains_set_hidden_self {ss : Spreadsheet} {t : String}
    (hw : hasWsTitle ss t = true) :
    (set_hidden ss t true).hiddenTitles.contains t = true := by
  unfold set_hidden
  rw [if_neg (by simp [hw])]
  rw [if_pos rfl]
  by_cases hcon : ss.hiddenTitles.contains t = true
  · rw [if_pos hcon]
    exact hcon
  · rw [if_neg (by simpa using hcon)]
    show (ss.hiddenTitles ++ [t]).contains t = true
    simp

theorem row_values_setRow1 (w : Worksheet) (r : List String) :
    row_values (w.setRow 1 r) 1 = trimTrailingBlanks r := by
  unfold row_values Worksheet.rowAt Worksheet.setRow
  rcases hc : w.cells with _ | ⟨c, rest⟩
  · rfl
  · simp only [padRowsTo, List.length_cons]
    rw [show (1 : Nat) - (rest.length + 1) = 0 from by omega]
    rw [show ((c :: rest) ++ List.replicate 0 ([] : List String)) = c :: rest
      from by simp]
    rfl

theorem ensure_headers_self_row {ss : Spreadsheet} {t : String}
    {hs : List String} (hws : (findWs ss t).isSome = true)
    (htrim : trimTrailingBlanks hs = hs) :
    ∃ w, findWs (ensure_headers ss t hs) t = some w ∧
      row_values w 1 = hs := by
  simp only [ensure_headers]
  by_cases hmatch : row_values (getWs ss t) 1 = hs
  · rw [if_pos hmatch]
    rcases hf : findWs ss t with _ | w
    · rw [hf] at hws
      simp at hws
    · exact ⟨w, rfl, by rw [← getWs_eq_of_find hf]; exact hmatch⟩
  · rw [if_neg hmatch]
    exact ⟨(getWs ss t).setRow 1 hs, findWs_setWs_self _ _ _, by
      rw [row_values_setRow1]; exact htrim⟩

theorem row_values_append_rows {w : Worksheet} (hc : w.cells ≠ [])
    (rs : List (List String)) :
    row_values (w.appendDataRows rs) 1 = row_values w 1 := by
  unfold row_values Worksheet.rowAt Worksheet.appendDataRows
  rcases hcc : w.cells with _ | ⟨c, rest⟩
  · exact absurd hcc hc
  · rfl

theorem get_all_records_ne_nil_append {w : Worksheet}
    {rs : List (List String)} (hc : w.cells ≠ []) (hrs : rs ≠ []) :
    get_all_records (w.appendDataRows rs) ≠ [] := by
  simp only [get_all_records, Worksheet.appendDataRows]
  intro h0
  have h1 := congrArg List.length h0
  rw [List.length_map, List.length_drop, List.length_append] at h1
  have h2 : 0 < w.cells.length := List.length_pos.mpr hc
  have h3 : 0 < rs.length := List.length_pos.mpr hrs
  simp at h1
  omega

theorem prepared_tail {B4 : Spreadsheet} {wl wa : Worksheet}
    (hlog : findWs B4 LOG_SHEET_TITLE = some wl)
    (hrl : row_values wl 1 = LOG_HEADERS)
    (happ : findWs B4 APP_STATE_TITLE = some wa)
    (hra : row_values wa 1 = APP_STATE_HEADERS)
    (hne : get_all_records wa ≠ [])
    (hhidA : B4.hiddenTitles.contains APP_STATE_TITLE = true) :
    Prepared (set_hidden (get_or_create_worksheet (set_hidden
      (get_or_create_worksheet (set_hidden (ensure_headers
        (get_or_create_worksheet B4 DEDUPE_TITLE) DEDUPE_TITLE
        DEDUPE_HEADERS) DEDUPE_TITLE true) TRACKS_TITLE) TRACKS_TITLE true)
      ARTISTS_TITLE) ARTISTS_TITLE true) := by
  set D1 := get_or_create_worksheet B4 DEDUPE_TITLE with hD1
  have hws1 : (findWs D1 DEDUPE_TITLE).isSome = true := by
    rw [hD1, findWs_get_or_create_self]
    rfl
  obtain ⟨wd, hfd, hrd⟩ :=
    @ensure_headers_self_row D1 DEDUPE_TITLE DEDUPE_HEADERS hws1 (by decide)
  set D2 := ensure_headers D1 DEDUPE_TITLE DEDUPE_HEADERS with hD2
  set D3 := set_hidden D2 DEDUPE_TITLE true with hD3
  set D4 := get_or_create_worksheet D3 TRACKS_TITLE with hD4
  set D5 := set_hidden D4 TRACKS_TITLE true with hD5
  set D6 := get_or_create_worksheet D5 ARTISTS_TITLE with hD6
  have hflF : findWs (set_hidden D6 ARTISTS_TITLE true) LOG_SHEET_TITLE =
      some wl := by
    rw [findWs_set_hidden, hD6, findWs_get_or_create_other (by decide), hD5,
      findWs_set_hidden, hD4, findWs_get_or_create_other (by decide), hD3,
      findWs_set_hidden, hD2, findWs_ensure_headers_other (by decide), hD1,
      findWs_get_or_create_other (by decide)]
    exact hlog
  have hfaF : findWs (set_hidden D6 ARTISTS_TITLE true) APP_STATE_TITLE =
      some wa := by
    rw [findWs_set_hidden, hD6, findWs_get_or_create_other (by decide), hD5,
      findWs_set_hidden, hD4, findWs_get_or_create_other (by decide), hD3,
      findWs_set_hidden, hD2, findWs_ensure_headers_other (by decide), hD1,
      findWs_get_or_create_other (by decide)]
    exact happ
  have hfdF : findWs (set_hidden D6 ARTISTS_TITLE true) DEDUPE_TITLE =
      some wd := by
    rw [findWs_set_hidden, hD6, findWs_get_or_create_other (by decide), hD5,
      findWs_set_hidden, hD4, findWs_get_or_create_other (by decide), hD3,
      findWs_set_hidden]
    exact hfd
  have htrF : (findWs (set_hidden D6 ARTISTS_TITLE true)
      TRACKS_TITLE).isSome = true := by
    rw [findWs_set_hidden, hD6, findWs_get_or_create_other (by decide), hD5,
      findWs_set_hidden, hD4, findWs_get_or_create_self]
    rfl
  have harF : (findWs (set_hidden D6 ARTISTS_TITLE true)
      ARTISTS_TITLE).isSome = true := by
    rw [findWs_set_hidden, hD6, findWs_get_or_create_self]
    rfl
  have capp2 : D2.hiddenTitles.contains APP_STATE_TITLE = true := by
    rw [hD2, hidden_ensure_headers, hD1, hidden_get_or_create]
    exact hhidA
  have capp3 : D3.hiddenTitles.contains APP_STATE_TITLE = true := by
    rw [hD3]
    exact contains_set_hidden_true _ capp2
  have capp4 : D4.hiddenTitles.contains APP_STATE_TITLE = true := by
    rw [hD4, hidden_get_or_create]
    exact capp3
  have capp5 : D5.hiddenTitles.contains APP_STATE_TITLE = true := by
    rw [hD5]
    exact contains_set_hidden_true _ capp4
  have capp6 : D6.hiddenTitles.contains APP_STATE_TITLE = true := by
    rw [hD6, hidden_get_or_create]
    exact capp5
  have cded3 : D3.hiddenTitles.contains DEDUPE_TITLE = true := by
    rw [hD3]
    refine contains_set_hidden_self ?_
    show (findWs D2 DEDUPE_TITLE).isSome = true
    rw [hfd]
    rfl
  have cded4 : D4.hiddenTitles.contains DEDUPE_TITLE = true := by
    rw [hD4, hidden_get_or_create]
    exact cded3
  have cded5 : D5.hiddenTitles.contains DEDUPE_TITLE = true := by
    rw [hD5]
    exact contains_set_hidden_true _ cded4
  have cded6 : D6.hiddenTitles.contains DEDUPE_TITLE = true := by
    rw [hD6, hidden_get_or_create]
    exact cded5
  have ctrk5 : D5.hiddenTitles.contains TRACKS_TITLE = true := by
    rw [hD5]
    refine contains_set_hidden_self ?_
    show (findWs D4 TRACKS_TITLE).isSome = true
    rw [hD4, findWs_get_or_create_self]
    rfl
  have ctrk6 : D6.hiddenTitles.contains TRACKS_TITLE = true := by
    rw [hD6, hidden_get_or_create]
    exact ctrk5
  have cart : (set_hidden D6 ARTISTS_TITLE true).hiddenTitles.contains
      ARTISTS_TITLE = true := by
    refine contains_set_hidden_self ?_
    show (findWs D6 ARTISTS_TITLE).isSome = true
    rw [hD6, findWs_get_or_create_self]
    rfl
  exact ⟨⟨wl, hflF, hrl⟩, ⟨wa, hfaF, hra, hne⟩, ⟨wd, hfdF, hrd⟩, htrF, harF,
    contains_set_hidden_true _ capp6, contains_set_hidden_true _ cded6,
    contains_set_hidden_true _ ctrk6, cart⟩

theorem prepare_prepared (ss : Spreadsheet) (now : String)
    (tzOpt : Option String) :
    Prepared (prepare_user_sheet ss now tzOpt) := by
  have hrowsne : appStateInitRows now tzOpt ≠ [] := by
    simp [appStateInitRows, APP_STATE_DEFAULTS]
  simp only [prepare_user_sheet]
  set A := ensure_headers (get_or_create_worksheet ss LOG_SHEET_TITLE)
    LOG_SHEET_TITLE LOG_HEADERS with hA
  have hwsL : (findWs (get_or_create_worksheet ss LOG_SHEET_TITLE)
      LOG_SHEET_TITLE).isSome = true := by
    rw [findWs_get_or_create_self]
    rfl
  obtain ⟨wl, hfl, hrl⟩ := @ensure_headers_self_row
    (get_or_create_worksheet ss LOG_SHEET_TITLE) LOG_SHEET_TITLE LOG_HEADERS
    hwsL (by decide)
  rw [← hA] at hfl
  set B := ensure_headers (get_or_create_worksheet A APP_STATE_TITLE)
    APP_STATE_TITLE APP_STATE_HEADERS with hB
  have hwsA : (findWs (get_or_create_worksheet A APP_STATE_TITLE)
      APP_STATE_TITLE).isSome = true := by
    rw [findWs_get_or_create_self]
    rfl
  obtain ⟨wa, hfa, hra⟩ := @ensure_headers_self_row
    (get_or_create_worksheet A APP_STATE_TITLE) APP_STATE_TITLE
    APP_STATE_HEADERS hwsA (by decide)
  rw [← hB] at hfa
  set C := set_hidden B APP_STATE_TITLE true with hC
  have hflB : findWs B LOG_SHEET_TITLE = some wl := by
    rw [hB, findWs_ensure_headers_other (by decide),
      findWs_get_or_create_other (by decide)]
    exact hfl
  have hflC : findWs C LOG_SHEET_TITLE = some wl := by
    rw [hC, findWs_set_hidden]
    exact hflB
  have hfaC : findWs C APP_STATE_TITLE = some wa := by
    rw [hC, findWs_set_hidden]
    exact hfa
  have hgwC : getWs C APP_STATE_TITLE = wa := getWs_eq_of_find hfaC
  have hhC : C.hiddenTitles.contains APP_STATE_TITLE = true := by
    rw [hC]
    refine contains_set_hidden_self ?_
    show (findWs B APP_STATE_TITLE).isSome = true
    rw [hfa]
    rfl
  by_cases hex : get_all_records (getWs C APP_STATE_TITLE) = []
  · rw [if_pos hex, if_neg hrowsne]
    refine @prepared_tail _ wl
      (wa.appendDataRows (appStateInitRows now tzOpt)) ?_ hrl ?_ ?_ ?_ ?_
    · rw [findWs_modifyWs_other (by decide)]
      exact hflC
    · unfold modifyWs
      rw [findWs_setWs_self, hgwC]
    · rw [row_values_append_rows (cells_ne_nil_of_row1 (by decide) hra)]
      exact hra
    · exact get_all_records_ne_nil_append
        (cells_ne_nil_of_row1 (by decide) hra) hrowsne
    · rw [hidden_modifyWs]
      exact hhC
  · rw [if_neg hex]
    rw [hgwC] at hex
    exact prepared_tail hflC hrl hfaC hra hex hhC

theorem prepare_of_prepared {ss : Spreadsheet} (hp : Prepared ss)
    (now : String) (tzOpt : Option String) :
    prepare_user_sheet ss now tzOpt = ss := by
  obtain ⟨⟨wl, hfl, hrl⟩, ⟨wa, hfa, hra, hne⟩, ⟨wd, hfd, hrd⟩, htr, har,
    hhA, hhD, hhT, hhR⟩ := hp
  have g1 : (findWs ss LOG_SHEET_TITLE).isSome := by
    rw [hfl]
    rfl
  have g2 : row_values (getWs ss LOG_SHEET_TITLE) 1 = LOG_HEADERS := by
    rw [getWs_eq_of_find hfl]
    exact hrl
  have g3 : (findWs ss APP_STATE_TITLE).isSome := by
    rw [hfa]
    rfl
  have g4 : row_values (getWs ss APP_STATE_TITLE) 1 = APP_STATE_HEADERS := by
    rw [getWs_eq_of_find hfa]
    exact hra
  have g5 : ¬ (get_all_records (getWs ss APP_STATE_TITLE) = []) := by
    rw [getWs_eq_of_find hfa]
    exact hne
  have g6 : (findWs ss DEDUPE_TITLE).isSome := by
    rw [hfd]
    rfl
  have g7 : row_values (getWs ss DEDUPE_TITLE) 1 = DEDUPE_HEADERS := by
    rw [getWs_eq_of_find hfd]
    exact hrd
  simp only [prepare_user_sheet]
  rw [get_or_create_of_present g1, ensure_headers_of_match g2,
    get_or_create_of_present g3, ensure_headers_of_match g4,
    set_hidden_of_hidden hhA, if_neg g5,
    get_or_create_of_present g6, ensure_headers_of_match g7,
    set_hidden_of_hidden hhD,
    get_or_create_of_present htr,
    set_hidden_of_hidden hhT,
    get_or_create_of_present har,
    set_hidden_of_hidden hhR]

/-- C7: schema preparation is idempotent — a second invocation, even with
a different timestamp and timezone argument, returns the store unchanged
(sections, header rows and state rows byte-identical) — and one
invocation establishes every section with the exact expected header rows:
the log, state and dedupe headers match their constants and the raw
track/artist caches exist. -/
theorem c7_prepare_idempotent (ss : Spreadsheet) (now now' : String)
    (tzOpt tzOpt' : Option String) :
    prepare_user_sheet (prepare_user_sheet ss now tzOpt) now' tzOpt' =
      prepare_user_sheet ss now tzOpt ∧
    (∃ w, findWs (prepare_user_sheet ss now tzOpt) LOG_SHEET_TITLE =
      some w ∧ row_values w 1 = LOG_HEADERS) ∧
    (∃ w, findWs (prepare_user_sheet ss now tzOpt) APP_STATE_TITLE =
      some w ∧ row_values w 1 = APP_STATE_HEADERS) ∧
    (∃ w, findWs (prepare_user_sheet ss now tzOpt) DEDUPE_TITLE =
      some w ∧ row_values w 1 = DEDUPE_HEADERS) ∧
    (findWs (prepare_user_sheet ss now tzOpt) TRACKS_TITLE).isSome = true ∧
    (findWs (prepare_user_sheet ss now tzOpt) ARTISTS_TITLE).isSome =
      true := by
  have hp := prepare_prepared ss now tzOpt
  refine ⟨prepare_of_prepared hp now' tzOpt', hp.1, ?_, hp.2.2.1,
    hp.2.2.2.1, hp.2.2.2.2.1⟩
  obtain ⟨wa, h1, h2, h3⟩ := hp.2.1
  exact ⟨wa, h1, h2⟩

theorem registryMatchRow_ge {rows : List PyDict} {n : Nat} {usid : String}
    {idx : Nat} (h : registryMatchRow rows n usid = some idx) : n ≤ idx := by
  induction rows generalizing n with
  | nil => simp [registryMatchRow] at h
  | cons r rest ih =>
    simp only [registryMatchRow] at h
    split at h
    · rw [Option.some.injEq] at h
      omega
    · have := ih h
      omega

theorem registryMatchRow_none_iff (rows : List PyDict) (n : Nat)
    (usid : String) :
    registryMatchRow rows n usid = none ↔
      ∀ r ∈ rows, pyStrip (pyGet r "user_sheet_id" "") ≠ usid := by
  induction rows generalizing n with
  | nil => simp [registryMatchRow]
  | cons r rest ih =>
    simp only [registryMatchRow]
    by_cases hr : pyStrip (pyGet r "user_sheet_id" "") = usid
    · rw [if_pos hr]
      simp [hr]
    · rw [if_neg hr]
      rw [ih (n + 1)]
      simp [hr]

theorem padRowsTo_getD (n : Nat) (cs : List (List String)) (i : Nat) :
    (padRowsTo n cs).getD i [] = cs.getD i [] := by
  unfold padRowsTo
  rcases lt_or_ge i cs.length with h | h
  · rw [List.getD_append _ _ _ _ h]
  · rw [List.getD_eq_default _ _ h, List.getD_append_right _ _ _ _ h]
    rw [List.getD_eq_getElem?_getD]
    rcases h2 : (List.replicate (n - cs.length)
        ([] : List String))[i - cs.length]? with _ | x
    · rfl
    · have := List.getElem?_mem h2
      rw [List.eq_of_mem_replicate this]
      rfl

theorem rowAt_setRow_self (ws : Worksheet) {n : Nat} (hn : 1 ≤ n)
    (r : List String) : (ws.setRow n r).rowAt n = r := by
  show ((padRowsTo n ws.cells).set (n - 1) r).getD (n - 1) [] = r
  rw [List.getD_eq_getElem?_getD, List.getElem?_set_self (by
    unfold padRowsTo
    rw [List.length_append, List.length_replicate]
    omega)]
  rfl

theorem rowAt_setRow_other (ws : Worksheet) {n j : Nat} (hj : 1 ≤ j)
    (hne : j ≠ n) (hn : 1 ≤ n) (r : List String) :
    (ws.setRow n r).rowAt j = ws.rowAt j := by
  show ((padRowsTo n ws.cells).set (n - 1) r).getD (j - 1) [] =
    ws.cells.getD (j - 1) []
  rw [List.getD_eq_getElem?_getD, List.getElem?_set_ne (by omega),
    ← List.getD_eq_getElem?_getD]
  exact padRowsTo_getD n ws.cells (j - 1)

theorem update_registry_row_seen {ws : Worksheet}
    (hrow : row_values ws 1 = REGISTRY_HEADERS) {idx : Nat}
    (hidx : 2 ≤ idx) (now : String) :
    registryField ((update_registry_row ws idx
      [("last_seen_at", now)]).rowAt idx) "last_seen_at" = now ∧
    (∀ k, k ≠ "last_seen_at" →
      registryField ((update_registry_row ws idx
        [("last_seen_at", now)]).rowAt idx) k =
        registryField (ws.rowAt idx) k) ∧
    (∀ j, 1 ≤ j → j ≠ idx →
      (update_registry_row ws idx [("last_seen_at", now)]).rowAt j =
        ws.rowAt j) := by
  have hupd : update_registry_row ws idx [("last_seen_at", now)] =
      ws.setRow idx ((padBlanksTo REGISTRY_HEADERS.length
        (row_values ws idx)).set 3 now) := by
    simp only [update_registry_row]
    rw [hrow]
    rfl
  set L := (padBlanksTo REGISTRY_HEADERS.length
    (row_values ws idx)).set 3 now with hL
  have hrowAt : (update_registry_row ws idx
      [("last_seen_at", now)]).rowAt idx = L := by
    rw [hupd]
    exact rowAt_setRow_self ws (by omega) L
  have hLlen : 3 < (padBlanksTo REGISTRY_HEADERS.length
      (row_values ws idx)).length := by
    unfold padBlanksTo
    rw [List.length_append, List.length_replicate]
    have h6 : REGISTRY_HEADERS.length = 6 := rfl
    omega
  have hgd3 : L.getD 3 "" = now := by
    rw [hL, List.getD_eq_getElem?_getD, List.getElem?_set_self hLlen]
    rfl
  have hgdo : ∀ i, i ≠ 3 → L.getD i "" = (ws.rowAt idx).getD i "" := by
    intro i hi
    rw [hL, List.getD_eq_getElem?_getD,
      List.getElem?_set_ne (fun hh => hi hh.symm),
      ← List.getD_eq_getElem?_getD, padBlanksTo_getD]
    exact trimTrailingBlanks_getD _ i
  refine ⟨?_, ?_, ?_⟩
  · rw [hrowAt]
    show L.getD 3 "" = now
    exact hgd3
  · intro k hk
    rw [hrowAt]
    show pyGet (recordOfRow REGISTRY_HEADERS L) k "" =
      pyGet (recordOfRow REGISTRY_HEADERS (ws.rowAt idx)) k ""
    rw [show recordOfRow REGISTRY_HEADERS L =
      [("user_sheet_id", L.getD 0 ""), ("enabled", L.getD 1 ""),
       ("created_at", L.getD 2 ""), ("last_seen_at", L.getD 3 ""),
       ("last_sync_at", L.getD 4 ""), ("last_error", L.getD 5 "")] from rfl]
    rw [show recordOfRow REGISTRY_HEADERS (ws.rowAt idx) =
      [("user_sheet_id", (ws.rowAt idx).getD 0 ""),
       ("enabled", (ws.rowAt idx).getD 1 ""),
       ("created_at", (ws.rowAt idx).getD 2 ""),
       ("last_seen_at", (ws.rowAt idx).getD 3 ""),
       ("last_sync_at", (ws.rowAt idx).getD 4 ""),
       ("last_error", (ws.rowAt idx).getD 5 "")] from rfl]
    simp only [pyGet_cons]
    rw [hgdo 0 (by decide), hgdo 1 (by decide), hgdo 2 (by decide),
      hgdo 4 (by decide), hgdo 5 (by decide)]
    have h3 : ¬ ("last_seen_at" = k) := fun hh => hk hh.symm
    rw [if_neg h3, if_neg h3]
  · intro j hj hne
    rw [hupd]
    exact rowAt_setRow_other ws hj hne (by omega) L

/-- C8: `ensure_registry_entry` is an upsert.  Over a registry worksheet
with the canonical headers: the scan finds no row exactly when no record's
stripped `user_sheet_id` matches; in that case a new row
`[usid, "false", now, now, "", ""]` is appended; when a row matches, only
that row is rewritten, its `last_seen_at` field becomes `now`, every
other field of the row keeps its value, and every other row is
unchanged. -/
theorem c8_registry_upsert {ss : Spreadsheet} {ws : Worksheet}
    (hfind : findWs ss REGISTRY_TITLE = some ws)
    (hrow : row_values ws 1 = REGISTRY_HEADERS)
    (usid now : String) :
    (registryMatchRow (get_all_records ws) 2 usid = none ↔
      ∀ r ∈ get_all_records ws,
        pyStrip (pyGet r "user_sheet_id" "") ≠ usid) ∧
    (registryMatchRow (get_all_records ws) 2 usid = none →
      ensure_registry_entry ss usid now =
        setWs ss REGISTRY_TITLE
          (ws.appendDataRows [[usid, "false", now, now, "", ""]])) ∧
    (∀ idx, registryMatchRow (get_all_records ws) 2 usid = some idx →
      ensure_registry_entry ss usid now =
        setWs ss REGISTRY_TITLE
          (update_registry_row ws idx [("last_seen_at", now)]) ∧
      registryField ((update_registry_row ws idx
        [("last_seen_at", now)]).rowAt idx) "last_seen_at" = now ∧
      (∀ k, k ≠ "last_seen_at" →
        registryField ((update_registry_row ws idx
          [("last_seen_at", now)]).rowAt idx) k =
          registryField (ws.rowAt idx) k) ∧
      (∀ j, 1 ≤ j → j ≠ idx →
        (update_registry_row ws idx [("last_seen_at", now)]).rowAt j =
          ws.rowAt j)) := by
  have hens : ensure_registry_worksheet ss = ss := by
    have g1 : (findWs ss REGISTRY_TITLE).isSome := by
      rw [hfind]
      rfl
    simp only [ensure_registry_worksheet]
    rw [get_or_create_of_present g1, getWs_eq_of_find hfind, if_pos hrow]
  have hent : ensure_registry_entry ss usid now =
      (match registryMatchRow (get_all_records ws) 2 usid with
       | some idx => setWs ss REGISTRY_TITLE
           (update_registry_row ws idx [("last_seen_at", now)])
       | none => setWs ss REGISTRY_TITLE
           (ws.appendDataRows [[usid, "false", now, now, "", ""]])) := by
    simp only [ensure_registry_entry]
    rw [hens, getWs_eq_of_find hfind]
  refine ⟨registryMatchRow_none_iff _ _ _, ?_, ?_⟩
  · intro hnone
    rw [hent, hnone]
  · intro idx hm
    have hidx : 2 ≤ idx := registryMatchRow_ge hm
    obtain ⟨p1, p2, p3⟩ := update_registry_row_seen hrow hidx now
    exact ⟨by rw [hent, hm], p1, p2, p3⟩

set_option maxRecDepth 100000 in
/-- C8 witness: the present-row touch at a concrete one-row registry. -/
theorem c8_registry_upsert_witness :
    ensure_registry_entry (c8RegStore [["A", "true", "ca", "la", "sa", "ea"]])
        "A" "NOW" =
      setWs (c8RegStore [["A", "true", "ca", "la", "sa", "ea"]])
        REGISTRY_TITLE
        (update_registry_row
          ⟨[REGISTRY_HEADERS, ["A", "true", "ca", "la", "sa", "ea"]]⟩ 2
          [("last_seen_at", "NOW")]) ∧
    registryField ((update_registry_row
        ⟨[REGISTRY_HEADERS, ["A", "true", "ca", "la", "sa", "ea"]]⟩ 2
        [("last_seen_at", "NOW")]).rowAt 2) "last_seen_at" = "NOW" :=
  (fun H => ⟨(H.2.2 2 (by decide)).1, (H.2.2 2 (by decide)).2.1⟩)
    (@c8_registry_upsert (c8RegStore [["A", "true", "ca", "la", "sa", "ea"]])
      ⟨[REGISTRY_HEADERS, ["A", "true", "ca", "la", "sa", "ea"]]⟩
      rfl (by decide) "A" "NOW")

theorem registryField_getD_usid (L : List String) :
    registryField L "user_sheet_id" = L.getD 0 "" := rfl

theorem registryField_getD_sync (L : List String) :
    registryField L "last_sync_at" = L.getD 4 "" := rfl

theorem registryField_getD_err (L : List String) :
    registryField L "last_error" = L.getD 5 "" := rfl

theorem openAndSyncUser_error {env : SyncEnv}
    {sheets : List (String × Spreadsheet)} {raw sid : String}
    (hsid : extract_sheet_id raw = sid) {uss : Spreadsheet}
    (hlook : lookupUserSheet sheets sid = some uss)
    {e : SyncError} {ss2 : Spreadsheet}
    (hsync : sync_single_user env uss = .error (e, ss2)) :
    openAndSyncUser env sheets raw =
      .error (e, setUserSheet sheets sid ss2) := by
  simp only [openAndSyncUser, hsid, hlook, hsync]

theorem openAndSyncUser_success {env : SyncEnv}
    {sheets : List (String × Spreadsheet)} {raw sid : String}
    (hsid : extract_sheet_id raw = sid) {uss : Spreadsheet}
    (hlook : lookupUserSheet sheets sid = some uss)
    {ss2 : Spreadsheet}
    (hsync : sync_single_user env uss = .ok ss2) :
    openAndSyncUser env sheets raw = .ok (setUserSheet sheets sid ss2) := by
  simp only [openAndSyncUser, hsid, hlook, hsync]

set_option maxRecDepth 100000 in
set_option maxHeartbeats 1000000 in
/-- C2: failure isolation of the outer batch loop.  For every pair of
enabled registry tenants "A" and "B" (arbitrary stores, environments and
registry fields) where A's pass raises any error `e` and B's pass
succeeds, `sync_all_enabled_users` completes: A's partially mutated store
and B's synced store are both persisted, A's registry row records
`str(e)` as `last_error` while its `last_sync_at` is unchanged, and B's
row gets `last_sync_at = now` and a cleared `last_error`. -/
theorem c2_failure_isolation {envOf : String → SyncEnv} {now : String}
    {ssA ssB ssA' ssB' : Spreadsheet} {e : SyncError}
    (ca la sa ea cb lb sb eb : String) (hid : List String)
    (hA : sync_single_user (envOf "A") ssA = .error (e, ssA'))
    (hB : sync_single_user (envOf "B") ssB = .ok ssB') :
    sync_all_enabled_users envOf now
      ⟨⟨[(REGISTRY_TITLE, ⟨[REGISTRY_HEADERS, ["A", "true", ca, la, sa, ea],
          ["B", "true", cb, lb, sb, eb]]⟩)], hid⟩,
       [("A", ssA), ("B", ssB)]⟩ =
      .ok ⟨⟨[(REGISTRY_TITLE, update_registry_row (update_registry_row
        ⟨[REGISTRY_HEADERS, ["A", "true", ca, la, sa, ea],
          ["B", "true", cb, lb, sb, eb]]⟩ 2
        [("last_error", errMsg e)]) 3
        [("last_sync_at", now), ("last_error", "")])], hid⟩,
        [("A", ssA'), ("B", ssB')]⟩ ∧
    registryField ((update_registry_row (update_registry_row
        ⟨[REGISTRY_HEADERS, ["A", "true", ca, la, sa, ea],
          ["B", "true", cb, lb, sb, eb]]⟩ 2
        [("last_error", errMsg e)]) 3
        [("last_sync_at", now), ("last_error", "")]).rowAt 2) "last_error" = errMsg e ∧
    registryField ((update_registry_row (update_registry_row
        ⟨[REGISTRY_HEADERS, ["A", "true", ca, la, sa, ea],
          ["B", "true", cb, lb, sb, eb]]⟩ 2
        [("last_error", errMsg e)]) 3
        [("last_sync_at", now), ("last_error", "")]).rowAt 2) "last_sync_at" = sa ∧
    registryField ((update_registry_row (update_registry_row
        ⟨[REGISTRY_HEADERS, ["A", "true", ca, la, sa, ea],
          ["B", "true", cb, lb, sb, eb]]⟩ 2
        [("last_error", errMsg e)]) 3
        [("last_sync_at", now), ("last_error", "")]).rowAt 3) "last_sync_at" = now ∧
    registryField ((update_registry_row (update_registry_row
        ⟨[REGISTRY_HEADERS, ["A", "true", ca, la, sa, ea],
          ["B", "true", cb, lb, sb, eb]]⟩ 2
        [("last_error", errMsg e)]) 3
        [("last_sync_at", now), ("last_error", "")]).rowAt 3) "last_error" = "" := by
  set ws0 : Worksheet := ⟨[REGISTRY_HEADERS, ["A", "true", ca, la, sa, ea],
    ["B", "true", cb, lb, sb, eb]]⟩ with hws0
  set W1 := update_registry_row ws0 2 [("last_error", errMsg e)] with hW1d
  set wsR := update_registry_row W1 3
    [("last_sync_at", now), ("last_error", "")] with hwsRd
  have hrow0 : row_values ws0 1 = REGISTRY_HEADERS := by
    rw [hws0]
    rfl
  have hpadlen : ∀ r : List String,
      5 < (padBlanksTo REGISTRY_HEADERS.length r).length := by
    intro r
    unfold padBlanksTo
    rw [List.length_append, List.length_replicate]
    have h6 : REGISTRY_HEADERS.length = 6 := rfl
    omega
  have hW1 : W1 = ws0.setRow 2 ((padBlanksTo REGISTRY_HEADERS.length
      (row_values ws0 2)).set 5 (errMsg e)) := by
    rw [hW1d]
    simp only [update_registry_row]
    rw [hrow0]
    rfl
  have hrowW1 : row_values W1 1 = REGISTRY_HEADERS := by
    show trimTrailingBlanks (W1.rowAt 1) = REGISTRY_HEADERS
    rw [hW1, rowAt_setRow_other ws0 (by omega) (by omega) (by omega)]
    exact hrow0
  have hwsR : wsR = W1.setRow 3 (((padBlanksTo REGISTRY_HEADERS.length
      (row_values W1 3)).set 4 now).set 5 "") := by
    rw [hwsRd]
    simp only [update_registry_row]
    rw [hrowW1]
    rfl
  have hA2 : wsR.rowAt 2 = (padBlanksTo REGISTRY_HEADERS.length
      (row_values ws0 2)).set 5 (errMsg e) := by
    rw [hwsR, rowAt_setRow_other W1 (by omega) (by omega) (by omega), hW1,
      rowAt_setRow_self ws0 (by omega)]
  have hB3 : wsR.rowAt 3 = ((padBlanksTo REGISTRY_HEADERS.length
      (row_values W1 3)).set 4 now).set 5 "" := by
    rw [hwsR, rowAt_setRow_self W1 (by omega)]
  have hrv02 : row_values ws0 2 =
      trimTrailingBlanks ["A", "true", ca, la, sa, ea] := by
    rw [hws0]
    rfl
  refine ⟨?_, ?_, ?_, ?_, ?_⟩
  · rw [show sync_all_enabled_users envOf now
      ⟨⟨[(REGISTRY_TITLE, ws0)], hid⟩, [("A", ssA), ("B", ssB)]⟩ =
      .ok ⟨setWs ⟨[(REGISTRY_TITLE, ws0)], hid⟩ REGISTRY_TITLE
        (syncRegistryRows envOf now
          [recordOfRow REGISTRY_HEADERS ["A", "true", ca, la, sa, ea],
           recordOfRow REGISTRY_HEADERS ["B", "true", cb, lb, sb, eb]]
          2 ws0 [("A", ssA), ("B", ssB)]).1,
        (syncRegistryRows envOf now
          [recordOfRow REGISTRY_HEADERS ["A", "true", ca, la, sa, ea],
           recordOfRow REGISTRY_HEADERS ["B", "true", cb, lb, sb, eb]]
          2 ws0 [("A", ssA), ("B", ssB)]).2⟩ from rfl]
    have h1 : syncRegistryRow envOf now
        (recordOfRow REGISTRY_HEADERS ["A", "true", ca, la, sa, ea]) 2 ws0
        [("A", ssA), ("B", ssB)] = (W1, [("A", ssA'), ("B", ssB)]) := by
      simp only [syncRegistryRow]
      rw [if_neg (show ¬ (asciiLower (pyGet (recordOfRow REGISTRY_HEADERS
        ["A", "true", ca, la, sa, ea]) "enabled" "") ≠ "true")
        from fun hh => hh rfl)]
      rw [if_neg (show ¬ (pyStrip (pyGet (recordOfRow REGISTRY_HEADERS
        ["A", "true", ca, la, sa, ea]) "user_sheet_id" "") = "")
        from fun hh => absurd (show ("A" : String) = "" from hh)
          (by decide))]
      rw [show pyStrip (pyGet (recordOfRow REGISTRY_HEADERS
        ["A", "true", ca, la, sa, ea]) "user_sheet_id" "") = "A" from rfl]
      rw [openAndSyncUser_error (show extract_sheet_id "A" = "A" from rfl)
        (show lookupUserSheet [("A", ssA), ("B", ssB)] "A" = some ssA
          from rfl) hA]
      rfl
    have h2 : syncRegistryRow envOf now
        (recordOfRow REGISTRY_HEADERS ["B", "true", cb, lb, sb, eb]) 3 W1
        [("A", ssA'), ("B", ssB)] = (wsR, [("A", ssA'), ("B", ssB')]) := by
      simp only [syncRegistryRow]
      rw [if_neg (show ¬ (asciiLower (pyGet (recordOfRow REGISTRY_HEADERS
        ["B", "true", cb, lb, sb, eb]) "enabled" "") ≠ "true")
        from fun hh => hh rfl)]
      rw [if_neg (show ¬ (pyStrip (pyGet (recordOfRow REGISTRY_HEADERS
        ["B", "true", cb, lb, sb, eb]) "user_sheet_id" "") = "")
        from fun hh => absurd (show ("B" : String) = "" from hh)
          (by decide))]
      rw [show pyStrip (pyGet (recordOfRow REGISTRY_HEADERS
        ["B", "true", cb, lb, sb, eb]) "user_sheet_id" "") = "B" from rfl]
      rw [openAndSyncUser_success (show extract_sheet_id "B" = "B" from rfl)
        (show lookupUserSheet [("A", ssA'), ("B", ssB)] "B" = some ssB
          from rfl) hB]
      rfl
    simp only [syncRegistryRows]
    rw [h1]
    dsimp only
    rw [h2]
    dsimp only
    rfl
  · rw [hA2, registryField_getD_err, List.getD_eq_getElem?_getD,
      List.getElem?_set_self (hpadlen _)]
    rfl
  · rw [hA2, registryField_getD_sync, List.getD_eq_getElem?_getD,
      List.getElem?_set_ne (by omega), ← List.getD_eq_getElem?_getD,
      padBlanksTo_getD, hrv02, trimTrailingBlanks_getD]
    rfl
  · rw [hB3, registryField_getD_sync, List.getD_eq_getElem?_getD,
      List.getElem?_set_ne (by omega)]
    rw [List.getElem?_set_self (lt_trans (by omega) (hpadlen _))]
    rfl
  · rw [hB3, registryField_getD_err, List.getD_eq_getElem?_getD]
    rw [List.getElem?_set_self (by rw [List.length_set]; exact hpadlen _)]
    rfl


set_option maxRecDepth 100000 in
/-- C2 witness: tenant A without a stored refresh token fails while
tenant B completes, at a concrete two-tenant world. -/
theorem c2_failure_isolation_witness :
    sync_all_enabled_users c2EnvOf "NW" c2World =
      .ok ⟨⟨[(REGISTRY_TITLE, update_registry_row (update_registry_row
          c2RegistryWs 2 [("last_error",
            errMsg SyncError.missingRefreshToken)]) 3
          [("last_sync_at", "NW"), ("last_error", "")])], []⟩,
        [("A", c2AFail.2), ("B", c2BAfter)]⟩ ∧
    registryField ((update_registry_row (update_registry_row c2RegistryWs 2
        [("last_error", errMsg SyncError.missingRefreshToken)]) 3
        [("last_sync_at", "NW"), ("last_error", "")]).rowAt 2)
      "last_error" = errMsg SyncError.missingRefreshToken ∧
    registryField ((update_registry_row (update_registry_row c2RegistryWs 2
        [("last_error", errMsg SyncError.missingRefreshToken)]) 3
        [("last_sync_at", "NW"), ("last_error", "")]).rowAt 2)
      "last_sync_at" = "sa" ∧
    registryField ((update_registry_row (update_registry_row c2RegistryWs 2
        [("last_error", errMsg SyncError.missingRefreshToken)]) 3
        [("last_sync_at", "NW"), ("last_error", "")]).rowAt 3)
      "last_sync_at" = "NW" :=
  (fun H => ⟨H.1, H.2.1, H.2.2.1, H.2.2.2.1⟩)
    (@c2_failure_isolation c2EnvOf "NW" (sampleStore "0" "" "")
      (sampleStore "0" "k:rt" "") c2AFail.2 c2BAfter
      SyncError.missingRefreshToken
      "ca" "la" "sa" "ea" "cb" "lb" "sb" "eb" [] rfl rfl)
